import Mathlib

/-!
# Electronic radar with vehicle classification

A shallow embedding of `src/radar_logic.c` and of the sensor, correlation
table and pipeline code of `src/main.c`, followed by the properties proved
about them.

Conventions of the embedding.

* A C `uint32_t` / `uint64_t` / `uint8_t` value is a `Nat`; every operation
  that can wrap in C is followed by an explicit `% U32`, `% U64` or `% U8`.
* A pointer argument that the C code tests against `NULL` is an `Option`
  (`none` is the null pointer, `some v` the pointed-to object).
* A C string is the list of its characters before the terminator, so
  `strlen` is `List.length`.
* Zephyr primitives (message queue, atomic counter, uptime clock) are not
  part of the repository; the clock is a parameter `now` of the handlers and
  the queue is a bounded FIFO list.
-/

namespace Radar

/-! ## Machine integers -/

/-- Number of values of a C `uint8_t`. -/
def U8 : Nat := 2 ^ 8

/-- Number of values of a C `uint32_t`. -/
def U32 : Nat := 2 ^ 32

/-- Number of values of a C `uint64_t`. -/
def U64 : Nat := 2 ^ 64

/-! ## `include/radar.h` -/

inductive radar_vehicle_type where
  | RADAR_VEHICLE_LIGHT
  | RADAR_VEHICLE_HEAVY
  deriving DecidableEq, Repr, Inhabited

inductive radar_status where
  | RADAR_STATUS_NORMAL
  | RADAR_STATUS_WARNING
  | RADAR_STATUS_INFRACTION
  deriving DecidableEq, Repr, Inhabited

open radar_vehicle_type radar_status

structure radar_classification where
  type : radar_vehicle_type
  speed_kph : Nat
  limit_kph : Nat
  warning_kph : Nat
  status : radar_status
  deriving DecidableEq, Repr, Inhabited

/-! ## `src/radar_logic.c` -/

def SPEED_SCALE_NUM : Nat := 36

def SPEED_SCALE_DEN : Nat := 10

/-- Embedding of `radar_calc_speed_kph`: both products are taken in 64 bits and
the quotient is cast back to 32 bits. -/
def radar_calc_speed_kph (distance_mm delta_ms : Nat) : Nat :=
  if delta_ms = 0 then
    0
  else
    let scaled := (distance_mm * SPEED_SCALE_NUM) % U64
    let denom := (delta_ms * SPEED_SCALE_DEN) % U64
    (scaled / denom) % U32

/-- Embedding of `radar_classify_vehicle`. -/
def radar_classify_vehicle (axle_pulses : Nat) : radar_vehicle_type :=
  if axle_pulses ≥ 3 then RADAR_VEHICLE_HEAVY else RADAR_VEHICLE_LIGHT

/-- Embedding of `radar_eval_status`. The argument `out` is the object the
pointer designates (`none` for a null pointer); the result is that object after
the call. The product `limit_kph * warning_percent` is a 32-bit product. -/
def radar_eval_status (speed_kph : Nat) (type : radar_vehicle_type)
    (warning_percent light_limit_kph heavy_limit_kph : Nat)
    (out : Option radar_classification) : Option radar_classification :=
  match out with
  | none => none
  | some _ =>
    let limit_kph :=
      if type = RADAR_VEHICLE_HEAVY then heavy_limit_kph else light_limit_kph
    let warning_kph := ((limit_kph * warning_percent) % U32) / 100
    let status :=
      if speed_kph > limit_kph then RADAR_STATUS_INFRACTION
      else if speed_kph ≥ warning_kph then RADAR_STATUS_WARNING
      else RADAR_STATUS_NORMAL
    some
      { type := type
        limit_kph := limit_kph
        warning_kph := warning_kph
        speed_kph := speed_kph
        status := status }

def is_letter (c : Char) : Bool :=
  decide (c ≥ 'A') && decide (c ≤ 'Z')

def is_digit (c : Char) : Bool :=
  decide (c ≥ '0') && decide (c ≤ '9')

/-- The character `plate[i]` of a C string: the terminator when `i` is the
length of the string. -/
def char_at (plate : List Char) (i : Nat) : Char :=
  plate.getD i (Char.ofNat 0)

/-- Embedding of `radar_plate_is_valid` (Mercosul format `LLLDLDD`). -/
def radar_plate_is_valid (plate : Option (List Char)) : Bool :=
  match plate with
  | none => false
  | some p =>
    if p.length ≠ 7 then false
    else if !is_letter (char_at p 0) || !is_letter (char_at p 1)
        || !is_letter (char_at p 2) then false
    else if !is_digit (char_at p 3) then false
    else if !is_letter (char_at p 4) then false
    else if !is_digit (char_at p 5) || !is_digit (char_at p 6) then false
    else true

/-! ## `src/main.c`: data -/

def SENSOR_QUEUE_LEN : Nat := 8

def DISPLAY_QUEUE_LEN : Nat := 8

def PLATE_MAX_LEN : Nat := 8

def CAMERA_CTX_MAX : Nat := 8

structure sensor_event where
  id : Nat
  timestamp_ms : Nat
  delta_ms : Nat
  axles : Nat
  deriving DecidableEq, Repr, Inhabited

structure radar_display_msg where
  id : Nat
  cls : radar_classification
  plate_valid : Bool
  plate : List Char
  deriving DecidableEq, Repr, Inhabited

structure camera_ctx_entry where
  in_use : Bool
  id : Nat
  msg : radar_display_msg
  deriving DecidableEq, Repr, Inhabited

/-- A zero-initialised `struct radar_display_msg`. -/
def radar_display_msg_zero : radar_display_msg :=
  { id := 0
    cls :=
      { type := RADAR_VEHICLE_LIGHT
        speed_kph := 0
        limit_kph := 0
        warning_kph := 0
        status := RADAR_STATUS_NORMAL }
    plate_valid := false
    plate := [] }

/-- The static array `camera_ctx` at program start: `CAMERA_CTX_MAX`
zero-initialised entries, none of them in use. -/
def camera_ctx_init : List camera_ctx_entry :=
  List.replicate CAMERA_CTX_MAX
    { in_use := false, id := 0, msg := radar_display_msg_zero }

/-- The detector state `sensor_state` (`axles` is a `uint8_t`). -/
structure sensor_state_t where
  active : Bool
  axles : Nat
  start_ms : Nat
  deriving DecidableEq, Repr, Inhabited

/-- The globals the two pulse handlers touch: the detector state, the atomic
`sample_counter` (kept modulo `2 ^ 32`, which is all that the cast to
`uint32_t` observes) and the contents of `sensor_queue`, oldest first. -/
structure sensor_globals where
  sensor_state : sensor_state_t
  sample_counter : Nat
  sensor_queue : List sensor_event
  deriving DecidableEq, Repr, Inhabited

/-! ## `src/main.c`: Zephyr primitives -/

/-- Modelled from the spec: the Zephyr call `k_msgq_put(q, x, K_NO_WAIT)` on a
bounded FIFO of capacity `max_msgs` ("Put is non-blocking with immediate
failure when full"). Returns the status (0 on success) and the queue. -/
def k_msgq_put {α : Type} (max_msgs : Nat) (q : List α) (x : α) : Int × List α :=
  if q.length < max_msgs then (0, q ++ [x]) else (-1, q)

/-- Modelled from the spec: the Zephyr call `atomic_inc`, which returns the
value before the increment; the pair is (returned value, stored value). -/
def atomic_inc (v : Nat) : Nat × Nat :=
  (v, (v + 1) % U32)

/-! ## `src/main.c`: edge detector -/

/-- Embedding of `sensor_reset`. -/
def sensor_reset (_s : sensor_state_t) : sensor_state_t :=
  { active := false, axles := 0, start_ms := 0 }

/-- Embedding of `sensor_pulse_a`; `now` is the value of `k_uptime_get_32()`. -/
def sensor_pulse_a (now : Nat) (g : sensor_globals) : sensor_globals :=
  let s := g.sensor_state
  let s1 : sensor_state_t :=
    if !s.active then { active := true, start_ms := now, axles := 0 } else s
  let s2 : sensor_state_t := { s1 with axles := (s1.axles + 1) % U8 }
  { g with sensor_state := s2 }

/-- Embedding of `sensor_pulse_b`; `now` is the value of `k_uptime_get_32()`.
The subtraction `now - start_ms` is a 32-bit subtraction. -/
def sensor_pulse_b (now : Nat) (g : sensor_globals) : sensor_globals :=
  if !g.sensor_state.active then
    g
  else
    let delta_ms := (now + U32 - g.sensor_state.start_ms) % U32
    let axles := g.sensor_state.axles
    let st := sensor_reset g.sensor_state
    let ctr := atomic_inc g.sample_counter
    let evt : sensor_event :=
      { id := ctr.1 % U32
        timestamp_ms := now
        delta_ms := delta_ms
        axles := axles }
    let put := k_msgq_put SENSOR_QUEUE_LEN g.sensor_queue evt
    { sensor_state := st, sample_counter := ctr.2, sensor_queue := put.2 }

/-! ## `src/main.c`: correlation table

The table is the list of the slots of `camera_ctx`. Every array access is
checked: a function returns `none` when it indexes outside the list. -/

/-- The loop of `camera_ctx_store`, at index `i` with `n` iterations left:
the value of `slot` when the loop ends (`-1` when no slot is free). -/
def store_scan (ctx : List camera_ctx_entry) : Nat → Nat → Option Int
  | 0, _ => some (-1)
  | n + 1, i =>
    match ctx[i]? with
    | none => none
    | some e => if !e.in_use then some (i : Int) else store_scan ctx n (i + 1)

/-- Embedding of `camera_ctx_store`. -/
def camera_ctx_store (ctx : List camera_ctx_entry) (msg : Option radar_display_msg) :
    Option (List camera_ctx_entry) :=
  match msg with
  | none => some ctx
  | some m =>
    match store_scan ctx CAMERA_CTX_MAX 0 with
    | none => none
    | some found =>
      let slot : Int := if found < 0 then 0 else found
      if 0 ≤ slot ∧ slot.toNat < ctx.length then
        some (ctx.set slot.toNat { in_use := true, id := m.id, msg := m })
      else
        none

/-- The loop of `camera_ctx_take`, at index `i` with `n` iterations left. The
result is the returned flag, the object behind `out` and the table. -/
def take_scan (id : Nat) (out : Option radar_display_msg) (ctx : List camera_ctx_entry) :
    Nat → Nat → Option (Bool × Option radar_display_msg × List camera_ctx_entry)
  | 0, _ => some (false, out, ctx)
  | n + 1, i =>
    match ctx[i]? with
    | none => none
    | some e =>
      if e.in_use && e.id == id then
        some (true, out.map (fun _ => e.msg), ctx.set i { e with in_use := false })
      else
        take_scan id out ctx n (i + 1)

/-- Embedding of `camera_ctx_take`. -/
def camera_ctx_take (ctx : List camera_ctx_entry) (id : Nat)
    (out : Option radar_display_msg) :
    Option (Bool × Option radar_display_msg × List camera_ctx_entry) :=
  take_scan id out ctx CAMERA_CTX_MAX 0

/-- A call on the correlation table, as `control_thread` and
`camera_listener_thread` issue them (with non-null pointers). -/
inductive ctx_call where
  | store (msg : radar_display_msg)
  | take (id : Nat)
  deriving DecidableEq, Repr

/-- The table after one call. -/
def ctx_step (ctx : List camera_ctx_entry) : ctx_call → Option (List camera_ctx_entry)
  | .store m => camera_ctx_store ctx (some m)
  | .take id => (camera_ctx_take ctx id (some radar_display_msg_zero)).map (fun r => r.2.2)

/-- The table after a sequence of calls. -/
def ctx_run (ctx : List camera_ctx_entry) : List ctx_call → Option (List camera_ctx_entry)
  | [] => some ctx
  | c :: cs =>
    match ctx_step ctx c with
    | none => none
    | some ctx1 => ctx_run ctx1 cs

/-- Some in-use slot holds `id`. -/
def ctx_pending (ctx : List camera_ctx_entry) (id : Nat) : Bool :=
  ctx.any (fun e => e.in_use && e.id == id)

/-- Number of in-use slots. -/
def ctx_in_use_count (ctx : List camera_ctx_entry) : Nat :=
  ctx.countP (fun e => e.in_use)

/-- No call of the sequence stores a record whose id is pending at that
moment. -/
def stores_fresh (ctx : List camera_ctx_entry) : List ctx_call → Bool
  | [] => true
  | c :: cs =>
    (match c with
      | .store m => !ctx_pending ctx m.id
      | .take _ => true)
    && (match ctx_step ctx c with
      | none => true
      | some ctx1 => stores_fresh ctx1 cs)

/-- No two in-use slots hold the same sample id. -/
def ctx_distinct (ctx : List camera_ctx_entry) : Prop :=
  ∀ (i j : Nat) (ei ej : camera_ctx_entry),
    ctx[i]? = some ei → ctx[j]? = some ej →
    ei.in_use = true → ej.in_use = true → ei.id = ej.id → i = j

/-- A display record that carries only its sample id. -/
def msg_of_id (id : Nat) : radar_display_msg :=
  { radar_display_msg_zero with id := id }

/-- A pending entry for a record that carries only its sample id. -/
def entry_of_id (id : Nat) : camera_ctx_entry :=
  { in_use := true, id := id, msg := msg_of_id id }

/-- A full table: slots 0..7 hold the pending ids 10..17. -/
def ctx_full_sample : List camera_ctx_entry :=
  [entry_of_id 10, entry_of_id 11, entry_of_id 12, entry_of_id 13,
   entry_of_id 14, entry_of_id 15, entry_of_id 16, entry_of_id 17]

/-- Nine stores with the distinct ids 0..8 and no take in between. -/
def nine_stores : List ctx_call :=
  [ctx_call.store (msg_of_id 0), ctx_call.store (msg_of_id 1), ctx_call.store (msg_of_id 2),
   ctx_call.store (msg_of_id 3), ctx_call.store (msg_of_id 4), ctx_call.store (msg_of_id 5),
   ctx_call.store (msg_of_id 6), ctx_call.store (msg_of_id 7), ctx_call.store (msg_of_id 8)]

/-! ## `src/main.c`: sequences of pulses -/

/-- The globals of the edge detector at program start: zero-initialised
`sensor_state`, `sample_counter = ATOMIC_INIT(0)`, empty `sensor_queue`. -/
def sensor_globals_init : sensor_globals :=
  { sensor_state := { active := false, axles := 0, start_ms := 0 }
    sample_counter := 0
    sensor_queue := [] }

/-- The `struct sensor_event evt` that `sensor_pulse_b` builds and hands to
`k_msgq_put`; `none` when the handler returns early because no crossing is in
progress. -/
def sensor_pulse_b_evt (now : Nat) (g : sensor_globals) : Option sensor_event :=
  if !g.sensor_state.active then
    none
  else
    some
      { id := (atomic_inc g.sample_counter).1 % U32
        timestamp_ms := now
        delta_ms := (now + U32 - g.sensor_state.start_ms) % U32
        axles := g.sensor_state.axles }

/-- A call of one of the two pulse handlers, with the uptime it reads. -/
inductive sensor_pulse where
  | a (now : Nat)
  | b (now : Nat)
  deriving DecidableEq, Repr

/-- The globals after a sequence of pulses, and the crossing events built on
the way, oldest first (whether or not the queue had room for them). -/
def sensor_run (g : sensor_globals) : List sensor_pulse → sensor_globals × List sensor_event
  | [] => (g, [])
  | .a now :: ps => sensor_run (sensor_pulse_a now g) ps
  | .b now :: ps =>
    let r := sensor_run (sensor_pulse_b now g) ps
    (r.1, (sensor_pulse_b_evt now g).toList ++ r.2)

/-! ## `src/main.c`: control stage and result listener -/

structure camera_request where
  sample_id : Nat
  type : radar_vehicle_type
  speed_kph : Nat
  limit_kph : Nat
  deriving DecidableEq, Repr, Inhabited

structure camera_response where
  sample_id : Nat
  success : Bool
  plate_valid : Bool
  plate : List Char
  deriving DecidableEq, Repr, Inhabited

/-- The build-time configuration values `CONFIG_RADAR_*` that `main.c` reads;
their definitions are outside the sources, so they are parameters. -/
structure radar_config where
  CONFIG_RADAR_SENSOR_DISTANCE_MM : Nat
  CONFIG_RADAR_WARNING_THRESHOLD_PERCENT : Nat
  CONFIG_RADAR_SPEED_LIMIT_LIGHT_KMH : Nat
  CONFIG_RADAR_SPEED_LIMIT_HEAVY_KMH : Nat
  CONFIG_RADAR_CAMERA_FAILURE_RATE_PERCENT : Nat
  deriving DecidableEq, Repr, Inhabited

/-- The globals the control stage and the result listener touch: the contents
of `display_queue` (oldest first), the table `camera_ctx`, and the messages
handed to `zbus_chan_pub` on `camera_request_chan` (oldest first). -/
structure pipeline_globals where
  display_queue : List radar_display_msg
  camera_ctx : List camera_ctx_entry
  camera_request_chan : List camera_request
  deriving DecidableEq, Repr, Inhabited

/-- Modelled from the spec: the Zephyr call `zbus_chan_pub(chan, msg, timeout)`,
a fire-and-forget publish; the channel is the record of the messages published
on it. Returns the status (0) and the channel. -/
def zbus_chan_pub {α : Type} (chan : List α) (msg : α) : Int × List α :=
  (0, chan ++ [msg])

/-- The C library call `snprintf(buf, size, ...)` whose formatted text is `text`:
the string left in `buf` is the text cut to `size - 1` characters. -/
def snprintf (size : Nat) (text : List Char) : List Char :=
  text.take (size - 1)

/-- A zero-initialised `struct radar_classification` (`cls = { 0 }`). -/
def radar_classification_zero : radar_classification :=
  { type := RADAR_VEHICLE_LIGHT
    speed_kph := 0
    limit_kph := 0
    warning_kph := 0
    status := RADAR_STATUS_NORMAL }

/-- One iteration of the loop of `control_thread`, for the event `evt` that
`k_msgq_get` delivers. -/
def control_thread_iter (cfg : radar_config) (evt : sensor_event) (g : pipeline_globals) :
    Option pipeline_globals :=
  let type := radar_classify_vehicle evt.axles
  let speed_kph := radar_calc_speed_kph cfg.CONFIG_RADAR_SENSOR_DISTANCE_MM evt.delta_ms
  let cls : radar_classification :=
    (radar_eval_status speed_kph type
      cfg.CONFIG_RADAR_WARNING_THRESHOLD_PERCENT
      cfg.CONFIG_RADAR_SPEED_LIMIT_LIGHT_KMH
      cfg.CONFIG_RADAR_SPEED_LIMIT_HEAVY_KMH
      (some radar_classification_zero)).getD radar_classification_zero
  let display_msg : radar_display_msg :=
    { id := evt.id, cls := cls, plate_valid := false, plate := [] }
  let put := k_msgq_put DISPLAY_QUEUE_LEN g.display_queue display_msg
  if cls.status = RADAR_STATUS_INFRACTION then
    let req : camera_request :=
      { sample_id := evt.id
        type := cls.type
        speed_kph := cls.speed_kph
        limit_kph := cls.limit_kph }
    match camera_ctx_store g.camera_ctx (some display_msg) with
    | none => none
    | some ctx1 =>
      let pub := zbus_chan_pub g.camera_request_chan req
      some { display_queue := put.2, camera_ctx := ctx1, camera_request_chan := pub.2 }
  else
    some { g with display_queue := put.2 }

/-- One iteration of the loop of `camera_listener_thread`, for the response
`resp` read from `camera_response_chan`. The local record handed to
`camera_ctx_take` is only read after a successful take has overwritten it. -/
def camera_listener_iter (resp : camera_response) (g : pipeline_globals) :
    Option pipeline_globals :=
  if !resp.success then
    match camera_ctx_take g.camera_ctx resp.sample_id (some radar_display_msg_zero) with
    | none => none
    | some (found, out, ctx1) =>
      if found then
        let failed_msg := out.getD radar_display_msg_zero
        let failed_msg :=
          { failed_msg with plate := snprintf PLATE_MAX_LEN ['F', 'A', 'L', 'H', 'A'] }
        let failed_msg := { failed_msg with plate_valid := false }
        let put := k_msgq_put DISPLAY_QUEUE_LEN g.display_queue failed_msg
        some { g with display_queue := put.2, camera_ctx := ctx1 }
      else
        some { g with camera_ctx := ctx1 }
  else
    match camera_ctx_take g.camera_ctx resp.sample_id (some radar_display_msg_zero) with
    | none => none
    | some (found, out, ctx1) =>
      if found then
        let msg := out.getD radar_display_msg_zero
        let msg := { msg with plate := snprintf PLATE_MAX_LEN resp.plate }
        let msg := { msg with plate_valid := resp.plate_valid }
        let put := k_msgq_put DISPLAY_QUEUE_LEN g.display_queue msg
        some { g with display_queue := put.2, camera_ctx := ctx1 }
      else
        some { g with camera_ctx := ctx1 }

/-! ## `src/main.c`: the simulated camera and the simulator -/

/-- Embedding of `random_letter`; `r` is the value `sys_rand32_get()` returns. -/
def random_letter (r : Nat) : Char :=
  Char.ofNat ('A'.toNat + r % 26)

/-- Embedding of `random_digit`; `r` is the value `sys_rand32_get()` returns. -/
def random_digit (r : Nat) : Char :=
  Char.ofNat ('0'.toNat + r % 10)

/-- The text that the conversion `%04u` prints for `v`: its decimal digits,
padded with zeros on the left to at least four characters. -/
def fmt_04u (v : Nat) : List Char :=
  let ds := Nat.toDigits 10 v
  List.replicate (4 - ds.length) '0' ++ ds

/-- Embedding of `make_plate`. The argument `out` is the buffer (`none` for a
null pointer), the result the string left in it; `rnd k` is the value that
the call number `k` of `sys_rand32_get()` returns. -/
def make_plate (out : Option (List Char)) (force_invalid : Bool) (rnd : Nat → Nat) :
    Option (List Char) :=
  match out with
  | none => none
  | some _ =>
    if force_invalid then
      some (snprintf PLATE_MAX_LEN (['X', 'X'] ++ fmt_04u (rnd 0 % 10000)))
    else
      some
        [random_letter (rnd 0), random_letter (rnd 1), random_letter (rnd 2),
         random_digit (rnd 3), random_letter (rnd 4), random_digit (rnd 5),
         random_digit (rnd 6)]

/-- The Zephyr macro `MAX(a, b)` of `sys/util.h`: the greater of its two
arguments. -/
def MAX (a b : Nat) : Nat :=
  if a > b then a else b

/-- Embedding of `calc_delta_for_speed`: 64-bit arithmetic, result cast to 32
bits. -/
def calc_delta_for_speed (distance_mm speed_kph : Nat) : Nat :=
  if speed_kph = 0 then
    1000
  else
    let num := (distance_mm * 36) % U64
    let den := (speed_kph * 10) % U64
    (MAX 1 ((((num + den) % U64 + U64 - 1) % U64) / den)) % U32

/-! # Properties -/

/-! ## Speed, classification and status (`radar_logic.c`) -/

/-- For 32-bit operands neither 64-bit product of `radar_calc_speed_kph`
wraps: the only reduction that can change the value is the final cast. -/
theorem radar_calc_speed_kph_wide (d t : Nat) (hd : d < U32) (ht : t < U32) (h0 : t ≠ 0) :
    radar_calc_speed_kph d t = (d * 36 / (t * 10)) % U32 := by
  have h1 : d * 36 < U64 := by unfold U32 at hd; unfold U64; omega
  have h2 : t * 10 < U64 := by unfold U32 at ht; unfold U64; omega
  simp only [radar_calc_speed_kph, if_neg h0, SPEED_SCALE_NUM, SPEED_SCALE_DEN,
    Nat.mod_eq_of_lt h1, Nat.mod_eq_of_lt h2]

/-- C1, as stated, fails: at distance 4294967295 mm and elapsed time 1 ms the
exact quotient 15461882262 does not fit in 32 bits and
`radar_calc_speed_kph` returns 2576980374. -/
theorem radar_calc_speed_kph_wraps :
    (4294967295 < U32 ∧ 1 < U32) ∧
      4294967295 * 36 / (1 * 10) = 15461882262 ∧
      radar_calc_speed_kph 4294967295 1 = 2576980374 ∧
      radar_calc_speed_kph 4294967295 1 ≠ 4294967295 * 36 / (1 * 10) := by
  decide

/-- C1 (amended): for all 32-bit `d` and `t`, `radar_calc_speed_kph d t` is 0
when `t = 0` and otherwise `floor (d * 36 / (t * 10))` reduced modulo `2 ^ 32`
(the 64-bit intermediate products never wrap); it is exactly
`floor (d * 36 / (t * 10))` whenever that quotient is below `2 ^ 32`, which is
the case for every `d ≤ 1193046471`; and `d = 4000`, `t = 400` gives 36. -/
theorem radar_calc_speed_kph_spec (d t : Nat) (hd : d < U32) (ht : t < U32) :
    (t = 0 → radar_calc_speed_kph d t = 0) ∧
      (t ≠ 0 → radar_calc_speed_kph d t = (d * 36 / (t * 10)) % U32) ∧
      (t ≠ 0 → d * 36 / (t * 10) < U32 → radar_calc_speed_kph d t = d * 36 / (t * 10)) ∧
      (t ≠ 0 → d ≤ 1193046471 → radar_calc_speed_kph d t = d * 36 / (t * 10)) ∧
      radar_calc_speed_kph 4000 400 = 36 := by
  refine ⟨?_, ?_, ?_, ?_, by decide⟩
  · intro h0
    simp [radar_calc_speed_kph, h0]
  · intro h0
    exact radar_calc_speed_kph_wide d t hd ht h0
  · intro h0 hq
    rw [radar_calc_speed_kph_wide d t hd ht h0, Nat.mod_eq_of_lt hq]
  · intro h0 hsmall
    have hq : d * 36 / (t * 10) < U32 := by
      have hle : d * 36 / (t * 10) ≤ d * 36 / 10 :=
        Nat.div_le_div_left (by omega) (by norm_num)
      have : d * 36 / 10 < U32 := by unfold U32; omega
      omega
    rw [radar_calc_speed_kph_wide d t hd ht h0, Nat.mod_eq_of_lt hq]

/-- Witness of `radar_calc_speed_kph_spec` at `d = 4000`, `t = 400`. -/
theorem radar_calc_speed_kph_spec_witness :
    (4000 < U32 ∧ 400 < U32) ∧ radar_calc_speed_kph 4000 400 = 4000 * 36 / (400 * 10) :=
  ⟨by decide,
    (radar_calc_speed_kph_spec 4000 400 (by decide) (by decide)).2.2.1 (by decide) (by decide)⟩

/-- C2: `radar_eval_status` writes the heavy limit for class HEAVY and the light
limit otherwise, copies speed and class, and sets INFRACTION iff
`speed > limit_kph`, WARNING iff `warning_kph ≤ speed ≤ limit_kph`, NORMAL
otherwise. At `speed = L` (the selected limit) the status is not INFRACTION and
is WARNING iff `L ≥ warning_kph`; at `speed = L + 1` it is INFRACTION. -/
theorem radar_eval_status_spec (speed : Nat) (type : radar_vehicle_type)
    (percent light heavy : Nat) (out : radar_classification) :
    ∃ c : radar_classification,
      radar_eval_status speed type percent light heavy (some out) = some c ∧
      c.limit_kph = (if type = RADAR_VEHICLE_HEAVY then heavy else light) ∧
      c.speed_kph = speed ∧ c.type = type ∧
      (c.status = RADAR_STATUS_INFRACTION ↔ speed > c.limit_kph) ∧
      (c.status = RADAR_STATUS_WARNING ↔ c.warning_kph ≤ speed ∧ speed ≤ c.limit_kph) ∧
      (c.status = RADAR_STATUS_NORMAL ↔
        ¬ speed > c.limit_kph ∧ ¬ (c.warning_kph ≤ speed ∧ speed ≤ c.limit_kph)) ∧
      (∃ cL : radar_classification,
        radar_eval_status c.limit_kph type percent light heavy (some out) = some cL ∧
        cL.limit_kph = c.limit_kph ∧ cL.warning_kph = c.warning_kph ∧
        cL.status ≠ RADAR_STATUS_INFRACTION ∧
        (cL.status = RADAR_STATUS_WARNING ↔ c.limit_kph ≥ c.warning_kph)) ∧
      (∃ cH : radar_classification,
        radar_eval_status (c.limit_kph + 1) type percent light heavy (some out) = some cH ∧
        cH.limit_kph = c.limit_kph ∧ cH.warning_kph = c.warning_kph ∧
        cH.status = RADAR_STATUS_INFRACTION) := by
  refine ⟨_, rfl, rfl, rfl, rfl, ?_, ?_, ?_, ⟨_, rfl, rfl, rfl, ?_, ?_⟩, ⟨_, rfl, rfl, rfl, ?_⟩⟩
  · dsimp only
    split_ifs <;> simp_all
  · dsimp only
    split_ifs <;> simp_all
  · dsimp only
    split_ifs <;> simp_all
  · dsimp only
    split_ifs <;> simp_all
  · dsimp only
    split_ifs <;> simp_all
  · dsimp only
    split_ifs <;> simp_all

/-- C3, as stated, fails: with limit 50000000 and warning percent 90 the 32-bit
product wraps, and `radar_eval_status` writes 2050327 where
`floor (50000000 * 90 / 100)` is 45000000. -/
theorem radar_eval_status_warning_wraps :
    (50000000 < U32 ∧ 90 < U32) ∧
      (radar_eval_status 0 RADAR_VEHICLE_LIGHT 90 50000000 50000000
          (some default)).map (fun c => c.warning_kph) = some 2050327 ∧
      (radar_eval_status 0 RADAR_VEHICLE_LIGHT 90 50000000 50000000
          (some default)).map (fun c => c.warning_kph) ≠ some (50000000 * 90 / 100) := by
  decide

/-- C3 (amended): the threshold `warning_kph` that `radar_eval_status` writes is
`floor (((limit * percent) mod 2 ^ 32) / 100)`, where `limit` is the limit
selected for the class; it equals `floor (limit * percent / 100)` whenever
`limit * percent < 2 ^ 32`, in particular for every percent up to 100 and every
limit up to 42949672. -/
theorem radar_eval_status_warning (speed : Nat) (type : radar_vehicle_type)
    (percent light heavy : Nat) (out : radar_classification) :
    ∃ c : radar_classification,
      radar_eval_status speed type percent light heavy (some out) = some c ∧
      c.limit_kph = (if type = RADAR_VEHICLE_HEAVY then heavy else light) ∧
      c.warning_kph = ((c.limit_kph * percent) % U32) / 100 ∧
      (c.limit_kph * percent < U32 → c.warning_kph = c.limit_kph * percent / 100) ∧
      (percent ≤ 100 → c.limit_kph ≤ 42949672 →
        c.warning_kph = c.limit_kph * percent / 100) := by
  refine ⟨_, rfl, rfl, rfl, ?_, ?_⟩
  · intro h
    dsimp only at h ⊢
    rw [Nat.mod_eq_of_lt h]
  · intro hp hl
    dsimp only at hl ⊢
    have h : (if type = RADAR_VEHICLE_HEAVY then heavy else light) * percent < U32 := by
      have : (if type = RADAR_VEHICLE_HEAVY then heavy else light) * percent
          ≤ 42949672 * 100 := Nat.mul_le_mul hl hp
      unfold U32
      omega
    rw [Nat.mod_eq_of_lt h]

/-- Witness of `radar_eval_status_warning`: heavy limit 80 at 90 percent gives
the threshold 72. -/
theorem radar_eval_status_warning_witness :
    ∃ c : radar_classification,
      radar_eval_status 48 RADAR_VEHICLE_HEAVY 90 100 80 (some default) = some c ∧
      c.limit_kph = 80 ∧ c.warning_kph = 72 := by
  obtain ⟨c, hc, hl, _, hw, _⟩ :=
    radar_eval_status_warning 48 RADAR_VEHICLE_HEAVY 90 100 80 default
  have hl80 : c.limit_kph = 80 := by simpa using hl
  refine ⟨c, hc, hl80, ?_⟩
  rw [hw (by rw [hl80]; decide), hl80]

/-- C4: `radar_classify_vehicle n` is HEAVY iff `n ≥ 3` and LIGHT otherwise;
2 is LIGHT, 3 and 5 are HEAVY. -/
theorem radar_classify_vehicle_spec :
    (∀ n : Nat,
      (radar_classify_vehicle n = RADAR_VEHICLE_HEAVY ↔ n ≥ 3) ∧
      (radar_classify_vehicle n = RADAR_VEHICLE_LIGHT ↔ n < 3)) ∧
    radar_classify_vehicle 0 = RADAR_VEHICLE_LIGHT ∧
    radar_classify_vehicle 1 = RADAR_VEHICLE_LIGHT ∧
    radar_classify_vehicle 2 = RADAR_VEHICLE_LIGHT ∧
    radar_classify_vehicle 3 = RADAR_VEHICLE_HEAVY ∧
    radar_classify_vehicle 5 = RADAR_VEHICLE_HEAVY := by
  refine ⟨?_, by decide, by decide, by decide, by decide, by decide⟩
  intro n
  unfold radar_classify_vehicle
  constructor <;> split_ifs <;> simp <;> omega

/-! ## Plate format (`radar_logic.c`) -/

/-- A list of length 7 is a list of seven named elements. -/
theorem list_length_seven {α : Type} (p : List α) (h : p.length = 7) :
    ∃ a b c d e f g, p = [a, b, c, d, e, f, g] := by
  match p, h with
  | [a, b, c, d, e, f, g], _ => exact ⟨a, b, c, d, e, f, g, rfl⟩

/-- C5: `radar_plate_is_valid p` holds iff `p` has exactly 7 characters, those at
positions 0, 1, 2, 4 are in `A..Z` and those at positions 3, 5, 6 are in
`0..9`; the null pointer and the empty string are rejected; "ABC1D23" and
"XYZ9A00" are accepted, "ABC1234", "AB1CD23", "ABC1D2" and the lowercase
"abc1d23" are rejected. -/
theorem radar_plate_is_valid_spec :
    (∀ p : List Char, radar_plate_is_valid (some p) = true ↔
      ∃ l0 l1 l2 d3 l4 d5 d6 : Char, p = [l0, l1, l2, d3, l4, d5, d6] ∧
        ('A' ≤ l0 ∧ l0 ≤ 'Z') ∧ ('A' ≤ l1 ∧ l1 ≤ 'Z') ∧ ('A' ≤ l2 ∧ l2 ≤ 'Z') ∧
        ('0' ≤ d3 ∧ d3 ≤ '9') ∧ ('A' ≤ l4 ∧ l4 ≤ 'Z') ∧
        ('0' ≤ d5 ∧ d5 ≤ '9') ∧ ('0' ≤ d6 ∧ d6 ≤ '9')) ∧
    radar_plate_is_valid none = false ∧
    radar_plate_is_valid (some []) = false ∧
    radar_plate_is_valid (some ['A', 'B', 'C', '1', 'D', '2', '3']) = true ∧
    radar_plate_is_valid (some ['X', 'Y', 'Z', '9', 'A', '0', '0']) = true ∧
    radar_plate_is_valid (some ['A', 'B', 'C', '1', '2', '3', '4']) = false ∧
    radar_plate_is_valid (some ['A', 'B', '1', 'C', 'D', '2', '3']) = false ∧
    radar_plate_is_valid (some ['A', 'B', 'C', '1', 'D', '2']) = false ∧
    radar_plate_is_valid (some ['a', 'b', 'c', '1', 'd', '2', '3']) = false := by
  refine ⟨?_, by decide, by decide, by decide, by decide, by decide, by decide,
    by decide, by decide⟩
  intro p
  constructor
  · intro h
    by_cases hl : p.length = 7
    · obtain ⟨a, b, c, d, e, f, g, rfl⟩ := list_length_seven p hl
      simp [radar_plate_is_valid, char_at, is_letter, is_digit] at h
      exact ⟨a, b, c, d, e, f, g, rfl, by tauto⟩
    · simp [radar_plate_is_valid, hl] at h
  · rintro ⟨a, b, c, d, e, f, g, rfl, h0, h1, h2, h3, h4, h5, h6⟩
    simp [radar_plate_is_valid, char_at, is_letter, is_digit, h0, h1, h2, h3, h4, h5, h6]

/-! ## Correlation table: the two scans -/

/-- The scan of `camera_ctx_take` over slots `i .. i + n - 1` that finds no
in-use slot with the id returns not-found and changes nothing. -/
theorem take_scan_miss (id : Nat) (out : Option radar_display_msg)
    (ctx : List camera_ctx_entry) (n : Nat) :
    ∀ i, i + n ≤ ctx.length →
      (∀ k e, i ≤ k → k < i + n → ctx[k]? = some e → (e.in_use && e.id == id) = false) →
      take_scan id out ctx n i = some (false, out, ctx) := by
  induction n with
  | zero => intro i _ _; rfl
  | succ n ih =>
    intro i hlen hmiss
    have hi : i < ctx.length := by omega
    have hget : ctx[i]? = some ctx[i] := List.getElem?_eq_getElem hi
    have hf := hmiss i ctx[i] (le_refl _) (by omega) hget
    simp only [take_scan, hget, hf]
    exact ih (i + 1) (by omega) (fun k e h1 h2 => hmiss k e (by omega) (by omega))

/-- The scan of `camera_ctx_take` over slots `i .. i + n - 1` whose first
in-use slot with the id is `k` returns the record of slot `k` and clears the
in-use flag of that slot only. -/
theorem take_scan_hit (id : Nat) (out : Option radar_display_msg)
    (ctx : List camera_ctx_entry) (k : Nat) (e : camera_ctx_entry)
    (hk : ctx[k]? = some e) (he : (e.in_use && e.id == id) = true) (n : Nat) :
    ∀ i, i ≤ k → k < i + n →
      (∀ j x, i ≤ j → j < k → ctx[j]? = some x → (x.in_use && x.id == id) = false) →
      take_scan id out ctx n i
        = some (true, out.map (fun _ => e.msg), ctx.set k { e with in_use := false }) := by
  induction n with
  | zero => intro i h1 h2 _; omega
  | succ n ih =>
    intro i h1 h2 hmiss
    by_cases hik : i = k
    · subst hik
      simp only [take_scan, hk, he, if_true]
    · have hlt : i < k := by omega
      have hklen : k < ctx.length := by
        rcases List.getElem?_eq_some.mp hk with ⟨h, _⟩
        exact h
      have hi : i < ctx.length := by omega
      have hget : ctx[i]? = some ctx[i] := List.getElem?_eq_getElem hi
      have hf := hmiss i ctx[i] (le_refl _) hlt hget
      simp only [take_scan, hget, hf]
      exact ih (i + 1) (by omega) (by omega) (fun j x h3 h4 => hmiss j x (by omega) h4)

/-- The scan of `camera_ctx_store` over slots `i .. i + n - 1` that are all in
use ends with `slot = -1`. -/
theorem store_scan_full (ctx : List camera_ctx_entry) (n : Nat) :
    ∀ i, i + n ≤ ctx.length →
      (∀ k e, i ≤ k → k < i + n → ctx[k]? = some e → e.in_use = true) →
      store_scan ctx n i = some (-1) := by
  induction n with
  | zero => intro i _ _; rfl
  | succ n ih =>
    intro i hlen hall
    have hi : i < ctx.length := by omega
    have hget : ctx[i]? = some ctx[i] := List.getElem?_eq_getElem hi
    have hu := hall i ctx[i] (le_refl _) (by omega) hget
    simp only [store_scan, hget, hu]
    exact ih (i + 1) (by omega) (fun k e h1 h2 => hall k e (by omega) (by omega))

/-- The scan of `camera_ctx_store` over slots `i .. i + n - 1` whose first free
slot is `k` ends with `slot = k`. -/
theorem store_scan_free (ctx : List camera_ctx_entry) (k : Nat) (e : camera_ctx_entry)
    (hk : ctx[k]? = some e) (he : e.in_use = false) (n : Nat) :
    ∀ i, i ≤ k → k < i + n →
      (∀ j x, i ≤ j → j < k → ctx[j]? = some x → x.in_use = true) →
      store_scan ctx n i = some (k : Int) := by
  induction n with
  | zero => intro i h1 h2 _; omega
  | succ n ih =>
    intro i h1 h2 hused
    by_cases hik : i = k
    · subst hik
      simp [store_scan, hk, he]
    · have hlt : i < k := by omega
      have hklen : k < ctx.length := by
        rcases List.getElem?_eq_some.mp hk with ⟨h, _⟩
        exact h
      have hi : i < ctx.length := by omega
      have hget : ctx[i]? = some ctx[i] := List.getElem?_eq_getElem hi
      have hu := hused i ctx[i] (le_refl _) hlt hget
      simp only [store_scan, hget, hu]
      exact ih (i + 1) (by omega) (by omega) (fun j x h3 h4 => hused j x (by omega) h4)

/-- Among the slots that satisfy a test there is one of lowest index. -/
theorem exists_first_slot {α : Type} (l : List α) (p : α → Bool)
    (h : ∃ (k : Nat) (e : α), l[k]? = some e ∧ p e = true) :
    ∃ (k : Nat) (e : α), l[k]? = some e ∧ p e = true ∧
      ∀ (j : Nat) (x : α), j < k → l[j]? = some x → p x = false := by
  classical
  have hex : ∃ k, ∃ e, l[k]? = some e ∧ p e = true := h
  obtain ⟨e, he, hp⟩ := Nat.find_spec hex
  refine ⟨Nat.find hex, e, he, hp, ?_⟩
  intro j x hj hx
  by_contra hne
  exact Nat.find_min hex hj ⟨x, hx, by simpa using hne⟩

/-! ## Correlation table: `camera_ctx_take` and `camera_ctx_store` as functions -/

theorem slot_hit_iff (id : Nat) (e : camera_ctx_entry) :
    (e.in_use && e.id == id) = true ↔ (e.in_use = true ∧ e.id = id) := by
  simp

theorem slot_miss_iff (id : Nat) (e : camera_ctx_entry) :
    (e.in_use && e.id == id) = false ↔ ¬ (e.in_use = true ∧ e.id = id) := by
  rw [← slot_hit_iff]
  simp

/-- When slot `k` is the first in-use slot holding `id`, `camera_ctx_take`
returns its record and clears its in-use flag. -/
theorem camera_ctx_take_hit (ctx : List camera_ctx_entry) (id : Nat)
    (out : Option radar_display_msg) (k : Nat) (e : camera_ctx_entry)
    (hlen : ctx.length = CAMERA_CTX_MAX)
    (hk : ctx[k]? = some e) (hu : e.in_use = true) (hid : e.id = id)
    (hfirst : ∀ (j : Nat) (x : camera_ctx_entry), j < k → ctx[j]? = some x →
      ¬ (x.in_use = true ∧ x.id = id)) :
    camera_ctx_take ctx id out
      = some (true, out.map (fun _ => e.msg), ctx.set k { e with in_use := false }) := by
  have hklen : k < ctx.length := by
    rcases List.getElem?_eq_some.mp hk with ⟨h, _⟩
    exact h
  unfold camera_ctx_take
  refine take_scan_hit id out ctx k e hk ((slot_hit_iff id e).mpr ⟨hu, hid⟩)
    CAMERA_CTX_MAX 0 (Nat.zero_le _) (by omega) ?_
  intro j x _ hj hx
  exact (slot_miss_iff id x).mpr (hfirst j x hj hx)

/-- When no in-use slot holds `id`, `camera_ctx_take` returns not-found and
changes nothing. -/
theorem camera_ctx_take_miss (ctx : List camera_ctx_entry) (id : Nat)
    (out : Option radar_display_msg)
    (hlen : ctx.length = CAMERA_CTX_MAX)
    (hnone : ∀ (k : Nat) (e : camera_ctx_entry), ctx[k]? = some e →
      ¬ (e.in_use = true ∧ e.id = id)) :
    camera_ctx_take ctx id out = some (false, out, ctx) := by
  unfold camera_ctx_take
  refine take_scan_miss id out ctx CAMERA_CTX_MAX 0 (by omega) ?_
  intro k e _ _ hk
  exact (slot_miss_iff id e).mpr (hnone k e hk)

/-- When slot `k` is the first free slot, `camera_ctx_store` writes there. -/
theorem camera_ctx_store_free (ctx : List camera_ctx_entry) (r : radar_display_msg)
    (k : Nat) (e : camera_ctx_entry)
    (hlen : ctx.length = CAMERA_CTX_MAX)
    (hk : ctx[k]? = some e) (hfree : e.in_use = false)
    (hfirst : ∀ (j : Nat) (x : camera_ctx_entry), j < k → ctx[j]? = some x →
      x.in_use = true) :
    camera_ctx_store ctx (some r)
      = some (ctx.set k { in_use := true, id := r.id, msg := r }) := by
  have hklen : k < ctx.length := by
    rcases List.getElem?_eq_some.mp hk with ⟨h, _⟩
    exact h
  have hscan : store_scan ctx CAMERA_CTX_MAX 0 = some (k : Int) :=
    store_scan_free ctx k e hk hfree CAMERA_CTX_MAX 0 (Nat.zero_le _) (by omega)
      (fun j x _ hj hx => hfirst j x hj hx)
  have hnn : ¬ ((k : Int) < 0) := by omega
  simp only [camera_ctx_store, hscan, if_neg hnn]
  rw [if_pos]
  · simp
  · exact ⟨by omega, by simpa using hklen⟩

/-- When every slot is in use, `camera_ctx_store` overwrites slot 0. -/
theorem camera_ctx_store_full (ctx : List camera_ctx_entry) (r : radar_display_msg)
    (hlen : ctx.length = CAMERA_CTX_MAX)
    (hfull : ∀ (k : Nat) (e : camera_ctx_entry), ctx[k]? = some e → e.in_use = true) :
    camera_ctx_store ctx (some r)
      = some (ctx.set 0 { in_use := true, id := r.id, msg := r }) := by
  have hscan : store_scan ctx CAMERA_CTX_MAX 0 = some (-1) :=
    store_scan_full ctx CAMERA_CTX_MAX 0 (by omega) (fun k e _ _ hk => hfull k e hk)
  have hpos : 0 < ctx.length := by rw [hlen]; decide
  have hneg : (-1 : Int) < 0 := by decide
  simp only [camera_ctx_store, hscan, if_pos hneg]
  rw [if_pos]
  · simp
  · exact ⟨le_refl _, by simpa using hpos⟩

/-! ## C6: `camera_ctx_take` -/

/-- C6: on a table of `CAMERA_CTX_MAX` slots `camera_ctx_take ctx id` returns,
and returns found iff some in-use slot holds `id`; when found, the record
returned is that of the lowest-index such slot `k`, slot `k` becomes free
(its id and record stay) and every other slot is unchanged; when not found
the output object and the whole table are unchanged. -/
theorem camera_ctx_take_spec (ctx : List camera_ctx_entry)
    (hlen : ctx.length = CAMERA_CTX_MAX) (id : Nat) (out : radar_display_msg) :
    ∃ (found : Bool) (m : radar_display_msg) (ctx1 : List camera_ctx_entry),
      camera_ctx_take ctx id (some out) = some (found, some m, ctx1) ∧
      (found = true ↔
        ∃ (k : Nat) (e : camera_ctx_entry), ctx[k]? = some e ∧ e.in_use = true ∧ e.id = id) ∧
      (found = true →
        ∃ (k : Nat) (e : camera_ctx_entry),
          ctx[k]? = some e ∧ e.in_use = true ∧ e.id = id ∧
          (∀ (j : Nat) (x : camera_ctx_entry), j < k → ctx[j]? = some x →
            ¬ (x.in_use = true ∧ x.id = id)) ∧
          m = e.msg ∧
          ctx1.length = CAMERA_CTX_MAX ∧
          ctx1[k]? = some { in_use := false, id := e.id, msg := e.msg } ∧
          (∀ j : Nat, j ≠ k → ctx1[j]? = ctx[j]?)) ∧
      (found = false → m = out ∧ ctx1 = ctx) := by
  by_cases h : ∃ (k : Nat) (e : camera_ctx_entry),
      ctx[k]? = some e ∧ (e.in_use && e.id == id) = true
  · obtain ⟨k, e, hk, he, hfirst⟩ :=
      exists_first_slot ctx (fun e => e.in_use && e.id == id) h
    obtain ⟨hu, hid⟩ := (slot_hit_iff id e).mp he
    have hfirst1 : ∀ (j : Nat) (x : camera_ctx_entry), j < k → ctx[j]? = some x →
        ¬ (x.in_use = true ∧ x.id = id) :=
      fun j x hj hx => (slot_miss_iff id x).mp (hfirst j x hj hx)
    have hklen : k < ctx.length := by
      rcases List.getElem?_eq_some.mp hk with ⟨h1, _⟩
      exact h1
    refine ⟨true, e.msg, ctx.set k { e with in_use := false },
      camera_ctx_take_hit ctx id (some out) k e hlen hk hu hid hfirst1, ?_, ?_, ?_⟩
    · exact ⟨fun _ => ⟨k, e, hk, hu, hid⟩, fun _ => rfl⟩
    · intro _
      refine ⟨k, e, hk, hu, hid, hfirst1, rfl, ?_, ?_, ?_⟩
      · rw [List.length_set, hlen]
      · rw [List.getElem?_set_self hklen]
      · intro j hj
        exact List.getElem?_set_ne (Ne.symm hj)
    · intro hft
      exact absurd hft (by decide)
  · have hnone : ∀ (k : Nat) (e : camera_ctx_entry), ctx[k]? = some e →
        ¬ (e.in_use = true ∧ e.id = id) := by
      intro k e hk hhit
      exact h ⟨k, e, hk, (slot_hit_iff id e).mpr hhit⟩
    refine ⟨false, out, ctx, camera_ctx_take_miss ctx id (some out) hlen hnone, ?_, ?_, ?_⟩
    · constructor
      · intro hft
        exact absurd hft (by decide)
      · rintro ⟨k, e, hk, hu, hid⟩
        exact absurd ⟨hu, hid⟩ (hnone k e hk)
    · intro hft
      exact absurd hft (by decide)
    · intro _
      exact ⟨rfl, rfl⟩

/-- Witness of `camera_ctx_take_spec`: taking id 13 from the full sample table
returns the record of slot 3. -/
theorem camera_ctx_take_spec_witness :
    ctx_full_sample.length = CAMERA_CTX_MAX ∧
    ∃ (found : Bool) (m : radar_display_msg) (ctx1 : List camera_ctx_entry),
      camera_ctx_take ctx_full_sample 13 (some radar_display_msg_zero)
        = some (found, some m, ctx1) ∧
      (found = true ↔
        ∃ (k : Nat) (e : camera_ctx_entry),
          ctx_full_sample[k]? = some e ∧ e.in_use = true ∧ e.id = 13) := by
  refine ⟨by decide, ?_⟩
  obtain ⟨found, m, ctx1, h1, h2, _⟩ :=
    camera_ctx_take_spec ctx_full_sample (by decide) 13 radar_display_msg_zero
  exact ⟨found, m, ctx1, h1, h2⟩

/-! ## Correlation table: invariants -/

theorem ctx_pending_iff (ctx : List camera_ctx_entry) (id : Nat) :
    ctx_pending ctx id = true ↔
      ∃ (k : Nat) (e : camera_ctx_entry), ctx[k]? = some e ∧ e.in_use = true ∧ e.id = id := by
  unfold ctx_pending
  rw [List.any_eq_true]
  constructor
  · rintro ⟨e, hmem, he⟩
    obtain ⟨k, hk⟩ := List.mem_iff_getElem?.mp hmem
    exact ⟨k, e, hk, (slot_hit_iff id e).mp he⟩
  · rintro ⟨k, e, hk, he⟩
    exact ⟨e, List.mem_iff_getElem?.mpr ⟨k, hk⟩, (slot_hit_iff id e).mpr he⟩

/-- On a table of `CAMERA_CTX_MAX` slots `camera_ctx_take` always returns: either
it hits the first in-use slot holding the id, or no slot holds it. -/
theorem camera_ctx_take_cases (ctx : List camera_ctx_entry) (id : Nat)
    (out : Option radar_display_msg) (hlen : ctx.length = CAMERA_CTX_MAX) :
    (∃ (k : Nat) (e : camera_ctx_entry),
        ctx[k]? = some e ∧ e.in_use = true ∧ e.id = id ∧
        camera_ctx_take ctx id out
          = some (true, out.map (fun _ => e.msg), ctx.set k { e with in_use := false })) ∨
    ((∀ (k : Nat) (e : camera_ctx_entry), ctx[k]? = some e →
        ¬ (e.in_use = true ∧ e.id = id)) ∧
      camera_ctx_take ctx id out = some (false, out, ctx)) := by
  by_cases h : ∃ (k : Nat) (e : camera_ctx_entry),
      ctx[k]? = some e ∧ (e.in_use && e.id == id) = true
  · obtain ⟨k, e, hk, he, hfirst⟩ :=
      exists_first_slot ctx (fun e => e.in_use && e.id == id) h
    obtain ⟨hu, hid⟩ := (slot_hit_iff id e).mp he
    exact Or.inl ⟨k, e, hk, hu, hid, camera_ctx_take_hit ctx id out k e hlen hk hu hid
      (fun j x hj hx => (slot_miss_iff id x).mp (hfirst j x hj hx))⟩
  · have hnone : ∀ (k : Nat) (e : camera_ctx_entry), ctx[k]? = some e →
        ¬ (e.in_use = true ∧ e.id = id) := by
      intro k e hk hhit
      exact h ⟨k, e, hk, (slot_hit_iff id e).mpr hhit⟩
    exact Or.inr ⟨hnone, camera_ctx_take_miss ctx id out hlen hnone⟩

/-- On a table of `CAMERA_CTX_MAX` slots `camera_ctx_store` always returns: it
writes the first free slot, or slot 0 when every slot is in use. -/
theorem camera_ctx_store_cases (ctx : List camera_ctx_entry) (r : radar_display_msg)
    (hlen : ctx.length = CAMERA_CTX_MAX) :
    (∃ (k : Nat) (e : camera_ctx_entry),
        ctx[k]? = some e ∧ e.in_use = false ∧
        (∀ (j : Nat) (x : camera_ctx_entry), j < k → ctx[j]? = some x → x.in_use = true) ∧
        camera_ctx_store ctx (some r)
          = some (ctx.set k { in_use := true, id := r.id, msg := r })) ∨
    ((∀ (k : Nat) (e : camera_ctx_entry), ctx[k]? = some e → e.in_use = true) ∧
      camera_ctx_store ctx (some r)
        = some (ctx.set 0 { in_use := true, id := r.id, msg := r })) := by
  by_cases h : ∃ (k : Nat) (e : camera_ctx_entry), ctx[k]? = some e ∧ (!e.in_use) = true
  · obtain ⟨k, e, hk, he, hfirst⟩ := exists_first_slot ctx (fun e => !e.in_use) h
    have hfree : e.in_use = false := by simpa using he
    have hfirst1 : ∀ (j : Nat) (x : camera_ctx_entry), j < k → ctx[j]? = some x →
        x.in_use = true := by
      intro j x hj hx
      simpa using hfirst j x hj hx
    exact Or.inl ⟨k, e, hk, hfree, hfirst1, camera_ctx_store_free ctx r k e hlen hk hfree hfirst1⟩
  · have hfull : ∀ (k : Nat) (e : camera_ctx_entry), ctx[k]? = some e → e.in_use = true := by
      intro k e hk
      by_contra hne
      exact h ⟨k, e, hk, by simpa using hne⟩
    exact Or.inr ⟨hfull, camera_ctx_store_full ctx r hlen hfull⟩

/-- Replacing a slot by a free entry keeps the in-use ids distinct. -/
theorem ctx_distinct_set_free (ctx : List camera_ctx_entry) (k : Nat) (x : camera_ctx_entry)
    (hd : ctx_distinct ctx) (hx : x.in_use = false) :
    ctx_distinct (ctx.set k x) := by
  intro i j ei ej hi hj ui uj hid
  rw [List.getElem?_set] at hi hj
  by_cases hki : k = i
  · rw [if_pos hki] at hi
    split_ifs at hi
    cases hi
    rw [hx] at ui
    exact absurd ui (by decide)
  · rw [if_neg hki] at hi
    by_cases hkj : k = j
    · rw [if_pos hkj] at hj
      split_ifs at hj
      cases hj
      rw [hx] at uj
      exact absurd uj (by decide)
    · rw [if_neg hkj] at hj
      exact hd i j ei ej hi hj ui uj hid

/-- Replacing a slot by an entry whose id no other in-use slot holds keeps the
in-use ids distinct. -/
theorem ctx_distinct_set_new (ctx : List camera_ctx_entry) (k : Nat) (x : camera_ctx_entry)
    (hd : ctx_distinct ctx)
    (hnew : ∀ (j : Nat) (e : camera_ctx_entry), j ≠ k → ctx[j]? = some e →
      e.in_use = true → e.id ≠ x.id) :
    ctx_distinct (ctx.set k x) := by
  intro i j ei ej hi hj ui uj hid
  rw [List.getElem?_set] at hi hj
  by_cases hki : k = i
  · by_cases hkj : k = j
    · rw [← hki, ← hkj]
    · rw [if_pos hki] at hi
      rw [if_neg hkj] at hj
      split_ifs at hi
      cases hi
      exact absurd hid.symm (hnew j ej (Ne.symm hkj) hj uj)
  · rw [if_neg hki] at hi
    by_cases hkj : k = j
    · rw [if_pos hkj] at hj
      split_ifs at hj
      cases hj
      exact absurd hid (hnew i ei (Ne.symm hki) hi ui)
    · rw [if_neg hkj] at hj
      exact hd i j ei ej hi hj ui uj hid

theorem camera_ctx_init_length : camera_ctx_init.length = CAMERA_CTX_MAX := by
  decide

theorem camera_ctx_init_distinct : ctx_distinct camera_ctx_init := by
  intro i j ei ej hi _ ui _ _
  have hmem : ei ∈ camera_ctx_init := List.mem_iff_getElem?.mpr ⟨i, hi⟩
  rw [camera_ctx_init, List.mem_replicate] at hmem
  rw [hmem.2] at ui
  exact absurd ui (by decide)

/-- One call keeps the table at `CAMERA_CTX_MAX` slots with distinct in-use ids,
provided a store does not reuse a pending id; in particular the call returns. -/
theorem ctx_step_invariant (ctx : List camera_ctx_entry) (c : ctx_call)
    (hlen : ctx.length = CAMERA_CTX_MAX) (hd : ctx_distinct ctx)
    (hfresh : ∀ m, c = ctx_call.store m → ctx_pending ctx m.id = false) :
    ∃ ctx1, ctx_step ctx c = some ctx1 ∧ ctx1.length = CAMERA_CTX_MAX ∧ ctx_distinct ctx1 := by
  cases c with
  | store m =>
    have hnp : ∀ (j : Nat) (e : camera_ctx_entry), ctx[j]? = some e →
        e.in_use = true → e.id ≠ m.id := by
      intro j e hj hu hid
      have hp : ctx_pending ctx m.id = true := (ctx_pending_iff ctx m.id).mpr ⟨j, e, hj, hu, hid⟩
      rw [hfresh m rfl] at hp
      exact absurd hp (by decide)
    rcases camera_ctx_store_cases ctx m hlen with ⟨k, e, _, _, _, hst⟩ | ⟨_, hst⟩
    · refine ⟨_, hst, by rw [List.length_set, hlen], ?_⟩
      exact ctx_distinct_set_new ctx k _ hd (fun j e _ hj hu => hnp j e hj hu)
    · refine ⟨_, hst, by rw [List.length_set, hlen], ?_⟩
      exact ctx_distinct_set_new ctx 0 _ hd (fun j e _ hj hu => hnp j e hj hu)
  | take id =>
    rcases camera_ctx_take_cases ctx id (some radar_display_msg_zero) hlen with
      ⟨k, e, _, _, _, htk⟩ | ⟨_, htk⟩
    · have hstep : ctx_step ctx (ctx_call.take id)
          = some (ctx.set k { e with in_use := false }) := by
        simp only [ctx_step, htk, Option.map_some']
      refine ⟨_, hstep, ?_, ?_⟩
      · rw [List.length_set, hlen]
      · exact ctx_distinct_set_free ctx k _ hd rfl
    · have hstep : ctx_step ctx (ctx_call.take id) = some ctx := by
        simp only [ctx_step, htk, Option.map_some']
      exact ⟨ctx, hstep, hlen, hd⟩

/-- A sequence of calls in which no store reuses a pending id returns and keeps
the table at `CAMERA_CTX_MAX` slots with distinct in-use ids. -/
theorem ctx_run_invariant (ops : List ctx_call) :
    ∀ ctx : List camera_ctx_entry, ctx.length = CAMERA_CTX_MAX → ctx_distinct ctx →
      stores_fresh ctx ops = true →
      ∃ ctx1, ctx_run ctx ops = some ctx1 ∧ ctx1.length = CAMERA_CTX_MAX ∧
        ctx_distinct ctx1 := by
  induction ops with
  | nil => intro ctx hlen hd _; exact ⟨ctx, rfl, hlen, hd⟩
  | cons c cs ih =>
    intro ctx hlen hd hfresh
    simp only [stores_fresh, Bool.and_eq_true] at hfresh
    obtain ⟨hc, hrest⟩ := hfresh
    have hfr : ∀ m, c = ctx_call.store m → ctx_pending ctx m.id = false := by
      intro m hm
      subst hm
      simpa using hc
    obtain ⟨ctx1, hstep, hlen1, hd1⟩ := ctx_step_invariant ctx c hlen hd hfr
    rw [hstep] at hrest
    obtain ⟨ctx2, hrun, hlen2, hd2⟩ := ih ctx1 hlen1 hd1 hrest
    exact ⟨ctx2, by simp only [ctx_run, hstep, hrun], hlen2, hd2⟩

/-- Every prefix of a sequence in which no store reuses a pending id is such a
sequence. -/
theorem stores_fresh_take (ops : List ctx_call) :
    ∀ (ctx : List camera_ctx_entry) (n : Nat), stores_fresh ctx ops = true →
      stores_fresh ctx (ops.take n) = true := by
  induction ops with
  | nil => intro ctx n h; simpa using h
  | cons c cs ih =>
    intro ctx n h
    cases n with
    | zero => rfl
    | succ n =>
      simp only [stores_fresh, Bool.and_eq_true, List.take_succ_cons] at h ⊢
      refine ⟨h.1, ?_⟩
      cases hs : ctx_step ctx c with
      | none => rfl
      | some ctx1 =>
        have h2 := h.2
        rw [hs] at h2
        exact ih ctx1 n h2

/-- After a successful take from a table with distinct in-use ids, no in-use
slot holds the id any more, so the next take of the same id misses. -/
theorem camera_ctx_take_again (ctx : List camera_ctx_entry) (id : Nat)
    (out out2 m : Option radar_display_msg) (ctx1 : List camera_ctx_entry)
    (hlen : ctx.length = CAMERA_CTX_MAX) (hd : ctx_distinct ctx)
    (h : camera_ctx_take ctx id out = some (true, m, ctx1)) :
    camera_ctx_take ctx1 id out2 = some (false, out2, ctx1) := by
  rcases camera_ctx_take_cases ctx id out hlen with ⟨k, e, hk, hu, hid, htk⟩ | ⟨_, htk⟩
  · rw [htk] at h
    have hctx1 : ctx.set k { e with in_use := false } = ctx1 := by
      injection h with h
      injection h with _ h
      injection h
    subst hctx1
    refine camera_ctx_take_miss _ id out2 (by rw [List.length_set, hlen]) ?_
    intro j x hj hx
    rw [List.getElem?_set] at hj
    by_cases hkj : k = j
    · rw [if_pos hkj] at hj
      split_ifs at hj
      cases hj
      exact absurd hx.1 (by simp)
    · rw [if_neg hkj] at hj
      exact hkj (hd k j e x hk hj hu hx.1 (by rw [hid, hx.2]))
  · rw [htk] at h
    injection h with h
    injection h with h _
    exact absurd h (by decide)

/-! ## C7: an entry cannot be taken twice -/

/-- C7, as stated, fails: after storing two records with the same id 5 into the
empty table, `camera_ctx_take 5` returns found and the take issued immediately
afterwards returns found again. -/
theorem camera_ctx_take_twice_found :
    ((ctx_run camera_ctx_init
        [ctx_call.store (msg_of_id 5), ctx_call.store (msg_of_id 5)]).bind
      (fun ctx => (camera_ctx_take ctx 5 (some radar_display_msg_zero)).bind
        (fun r1 => (camera_ctx_take r1.2.2 5 (some radar_display_msg_zero)).map
          (fun r2 => (r1.1, r2.1))))) = some (true, true) := by
  decide

/-- C7 (amended): in every table state reached from the empty table by a
sequence of `camera_ctx_store` and `camera_ctx_take` calls in which no record is
stored while its id is pending, if `camera_ctx_take id` returns found then the
`camera_ctx_take id` issued immediately afterwards returns not-found and
changes nothing. -/
theorem camera_ctx_take_twice (ops : List ctx_call)
    (hfresh : stores_fresh camera_ctx_init ops = true) (id : Nat)
    (out out2 : radar_display_msg) :
    ∃ ctx, ctx_run camera_ctx_init ops = some ctx ∧
      ∀ (m : Option radar_display_msg) (ctx1 : List camera_ctx_entry),
        camera_ctx_take ctx id (some out) = some (true, m, ctx1) →
        camera_ctx_take ctx1 id (some out2) = some (false, some out2, ctx1) := by
  obtain ⟨ctx, hrun, hlen, hd⟩ :=
    ctx_run_invariant ops camera_ctx_init camera_ctx_init_length camera_ctx_init_distinct hfresh
  refine ⟨ctx, hrun, ?_⟩
  intro m ctx1 h
  exact camera_ctx_take_again ctx id (some out) (some out2) m ctx1 hlen hd h

/-- Witness of `camera_ctx_take_twice`: after one store of id 5 the first take
of 5 is found, and the theorem makes the second one miss. -/
theorem camera_ctx_take_twice_witness :
    stores_fresh camera_ctx_init [ctx_call.store (msg_of_id 5)] = true ∧
    ∃ ctx, ctx_run camera_ctx_init [ctx_call.store (msg_of_id 5)] = some ctx ∧
      (camera_ctx_take ctx 5 (some radar_display_msg_zero)).map (fun r => r.1) = some true ∧
      ∀ (m : Option radar_display_msg) (ctx1 : List camera_ctx_entry),
        camera_ctx_take ctx 5 (some radar_display_msg_zero) = some (true, m, ctx1) →
        camera_ctx_take ctx1 5 (some radar_display_msg_zero)
          = some (false, some radar_display_msg_zero, ctx1) := by
  refine ⟨by decide, ?_⟩
  obtain ⟨ctx, hrun, h⟩ :=
    camera_ctx_take_twice [ctx_call.store (msg_of_id 5)] (by decide) 5
      radar_display_msg_zero radar_display_msg_zero
  refine ⟨ctx, hrun, ?_, h⟩
  have hctx : ctx_run camera_ctx_init [ctx_call.store (msg_of_id 5)]
      = some (camera_ctx_init.set 0 (entry_of_id 5)) := by decide
  rw [hctx] at hrun
  injection hrun with hrun
  subst hrun
  decide

/-! ## C8: consistency under any load -/

/-- C8: starting from the empty table, after every prefix of every sequence of
`camera_ctx_store` and `camera_ctx_take` calls in which no record is stored
while its id is pending, all calls have returned without indexing outside the
table, the table still has `CAMERA_CTX_MAX` slots, no two in-use slots hold the
same id, at most `CAMERA_CTX_MAX` slots are in use, and a further store or take
stays inside the table as well. -/
theorem camera_ctx_consistent (ops : List ctx_call)
    (hfresh : stores_fresh camera_ctx_init ops = true) (n : Nat) :
    ∃ ctx, ctx_run camera_ctx_init (ops.take n) = some ctx ∧
      ctx.length = CAMERA_CTX_MAX ∧
      ctx_distinct ctx ∧
      ctx_in_use_count ctx ≤ CAMERA_CTX_MAX ∧
      (∀ r : radar_display_msg, (camera_ctx_store ctx (some r)).isSome = true) ∧
      (∀ (id : Nat) (out : Option radar_display_msg),
        (camera_ctx_take ctx id out).isSome = true) := by
  obtain ⟨ctx, hrun, hlen, hd⟩ :=
    ctx_run_invariant (ops.take n) camera_ctx_init camera_ctx_init_length
      camera_ctx_init_distinct (stores_fresh_take ops camera_ctx_init n hfresh)
  refine ⟨ctx, hrun, hlen, hd, ?_, ?_, ?_⟩
  · unfold ctx_in_use_count
    rw [← hlen]
    exact List.countP_le_length _
  · intro r
    rcases camera_ctx_store_cases ctx r hlen with ⟨_, _, _, _, _, h⟩ | ⟨_, h⟩ <;> rw [h] <;> rfl
  · intro id out
    rcases camera_ctx_take_cases ctx id out hlen with ⟨_, _, _, _, _, h⟩ | ⟨_, h⟩ <;>
      rw [h] <;> rfl

/-- Witness of `camera_ctx_consistent`: nine stores with distinct ids and no
take in between. -/
theorem camera_ctx_consistent_witness :
    stores_fresh camera_ctx_init nine_stores = true ∧
    ∃ ctx, ctx_run camera_ctx_init (nine_stores.take 9) = some ctx ∧
      ctx.length = CAMERA_CTX_MAX ∧ ctx_distinct ctx ∧
      ctx_in_use_count ctx ≤ CAMERA_CTX_MAX := by
  refine ⟨by decide, ?_⟩
  obtain ⟨ctx, h1, h2, h3, h4, _⟩ := camera_ctx_consistent nine_stores (by decide) 9
  exact ⟨ctx, h1, h2, h3, h4⟩

/-! ## C9: `camera_ctx_store` -/

/-- The full sample table is what eight stores of the ids 10..17 build from the
empty table, so its in-use ids are distinct. -/
theorem ctx_full_sample_distinct : ctx_distinct ctx_full_sample := by
  obtain ⟨ctx, hrun, _, hd⟩ :=
    ctx_run_invariant
      [ctx_call.store (msg_of_id 10), ctx_call.store (msg_of_id 11),
       ctx_call.store (msg_of_id 12), ctx_call.store (msg_of_id 13),
       ctx_call.store (msg_of_id 14), ctx_call.store (msg_of_id 15),
       ctx_call.store (msg_of_id 16), ctx_call.store (msg_of_id 17)]
      camera_ctx_init camera_ctx_init_length camera_ctx_init_distinct (by decide)
  have hsample :
      ctx_run camera_ctx_init
        [ctx_call.store (msg_of_id 10), ctx_call.store (msg_of_id 11),
         ctx_call.store (msg_of_id 12), ctx_call.store (msg_of_id 13),
         ctx_call.store (msg_of_id 14), ctx_call.store (msg_of_id 15),
         ctx_call.store (msg_of_id 16), ctx_call.store (msg_of_id 17)]
        = some ctx_full_sample := by
    decide
  rw [hsample] at hrun
  cases hrun
  exact hd

/-- C9: on a table of `CAMERA_CTX_MAX` slots `camera_ctx_store ctx r` returns and
writes the entry (in-use, `r.id`, `r`) into one slot: the lowest-index free slot
if there is one, slot 0 if every slot is in use; every other slot is unchanged.
After a store into a full table, whatever a take returns is the new record or
the entry of one of the slots 1..7, never the old content of slot 0; and when
the in-use ids were distinct and `r.id` was not pending, taking the id of the
old slot 0 returns not-found while taking the id of any of the slots 1..7
returns that slot's record. -/
theorem camera_ctx_store_spec (ctx : List camera_ctx_entry)
    (hlen : ctx.length = CAMERA_CTX_MAX) (r : radar_display_msg) :
    ∃ (slot : Nat) (ctx1 : List camera_ctx_entry),
      camera_ctx_store ctx (some r) = some ctx1 ∧
      slot < CAMERA_CTX_MAX ∧
      ((∃ e : camera_ctx_entry, ctx[slot]? = some e ∧ e.in_use = false ∧
          ∀ (j : Nat) (x : camera_ctx_entry), j < slot → ctx[j]? = some x →
            x.in_use = true) ∨
        (slot = 0 ∧
          ∀ (k : Nat) (e : camera_ctx_entry), ctx[k]? = some e → e.in_use = true)) ∧
      ctx1.length = CAMERA_CTX_MAX ∧
      ctx1[slot]? = some { in_use := true, id := r.id, msg := r } ∧
      (∀ j : Nat, j ≠ slot → ctx1[j]? = ctx[j]?) ∧
      ((∀ (k : Nat) (e : camera_ctx_entry), ctx[k]? = some e → e.in_use = true) →
        slot = 0 ∧
        (∀ (id : Nat) (out m : radar_display_msg) (ctx2 : List camera_ctx_entry),
          camera_ctx_take ctx1 id (some out) = some (true, some m, ctx2) →
          (id = r.id ∧ m = r) ∨
            ∃ (j : Nat) (e : camera_ctx_entry),
              1 ≤ j ∧ ctx[j]? = some e ∧ e.id = id ∧ m = e.msg) ∧
        (ctx_distinct ctx → ctx_pending ctx r.id = false →
          (∀ (e0 : camera_ctx_entry) (out : radar_display_msg), ctx[0]? = some e0 →
            camera_ctx_take ctx1 e0.id (some out) = some (false, some out, ctx1)) ∧
          (∀ (j : Nat) (e : camera_ctx_entry) (out : radar_display_msg),
            1 ≤ j → ctx[j]? = some e →
            camera_ctx_take ctx1 e.id (some out)
              = some (true, some e.msg, ctx1.set j { e with in_use := false })))) := by
  have hpos : 0 < ctx.length := by rw [hlen]; decide
  rcases camera_ctx_store_cases ctx r hlen with ⟨k, e, hk, hfree, hfirst, hst⟩ | ⟨hfull, hst⟩
  · have hklen : k < ctx.length := (List.getElem?_eq_some.mp hk).1
    refine ⟨k, _, hst, by rw [← hlen]; exact hklen, Or.inl ⟨e, hk, hfree, hfirst⟩,
      by rw [List.length_set, hlen], List.getElem?_set_self hklen,
      fun j hj => List.getElem?_set_ne (Ne.symm hj), ?_⟩
    intro hfull
    rw [hfull k e hk] at hfree
    exact absurd hfree (by decide)
  · have hlen1 : (ctx.set 0 ({ in_use := true, id := r.id, msg := r } :
        camera_ctx_entry)).length = CAMERA_CTX_MAX := by
      rw [List.length_set, hlen]
    have hnew : (ctx.set 0 ({ in_use := true, id := r.id, msg := r } :
        camera_ctx_entry))[0]? = some { in_use := true, id := r.id, msg := r } :=
      List.getElem?_set_self hpos
    have hold : ∀ j : Nat, j ≠ 0 →
        (ctx.set 0 ({ in_use := true, id := r.id, msg := r } : camera_ctx_entry))[j]?
          = ctx[j]? :=
      fun j hj => List.getElem?_set_ne (Ne.symm hj)
    refine ⟨0, _, hst, by decide, Or.inr ⟨rfl, hfull⟩, hlen1, hnew, hold, ?_⟩
    intro _
    refine ⟨rfl, ?_, ?_⟩
    · intro id out m ctx2 htake
      rcases camera_ctx_take_cases _ id (some out) hlen1 with
        ⟨k, e, hk, _, hid, htk⟩ | ⟨_, htk⟩
      · rw [htk] at htake
        have hm : e.msg = m := by
          injection htake with htake
          injection htake with _ htake
          injection htake with htake _
          simpa using htake
        by_cases hk0 : k = 0
        · subst hk0
          rw [hnew] at hk
          cases hk
          exact Or.inl ⟨hid.symm, hm.symm⟩
        · rw [hold k hk0] at hk
          exact Or.inr ⟨k, e, by omega, hk, hid, hm.symm⟩
      · rw [htk] at htake
        injection htake with htake
        injection htake with htake _
        exact absurd htake (by decide)
    · intro hd hnp
      have hfreshid : ∀ (j : Nat) (x : camera_ctx_entry), ctx[j]? = some x → x.id ≠ r.id := by
        intro j x hj hid
        have hp : ctx_pending ctx r.id = true :=
          (ctx_pending_iff ctx r.id).mpr ⟨j, x, hj, hfull j x hj, hid⟩
        rw [hnp] at hp
        exact absurd hp (by decide)
      constructor
      · intro e0 out h0
        refine camera_ctx_take_miss _ e0.id (some out) hlen1 ?_
        intro j x hj hx
        by_cases hj0 : j = 0
        · subst hj0
          rw [hnew] at hj
          cases hj
          exact hfreshid 0 e0 h0 hx.2.symm
        · rw [hold j hj0] at hj
          exact hj0 (hd j 0 x e0 hj h0 hx.1 (hfull 0 e0 h0) hx.2)
      · intro j e out hj1 hj
        have hj0 : j ≠ 0 := by omega
        have hj' := hj
        rw [← hold j hj0] at hj'
        refine camera_ctx_take_hit _ e.id (some out) j e hlen1 hj' (hfull j e hj) rfl ?_
        intro i x hi hx hhit
        by_cases hi0 : i = 0
        · subst hi0
          rw [hnew] at hx
          cases hx
          exact hfreshid j e hj hhit.2.symm
        · rw [hold i hi0] at hx
          have : i = j := hd i j x e hx hj hhit.1 (hfull j e hj) hhit.2
          omega

/-- Witness of `camera_ctx_store_spec`: storing id 99 into the full sample table
overwrites slot 0; id 10 (the old slot 0) can no longer be taken, id 11
(slot 1) still can. -/
theorem camera_ctx_store_spec_witness :
    ctx_full_sample.length = CAMERA_CTX_MAX ∧
    ∃ ctx1 : List camera_ctx_entry,
      camera_ctx_store ctx_full_sample (some (msg_of_id 99)) = some ctx1 ∧
      ctx1[0]? = some { in_use := true, id := 99, msg := msg_of_id 99 } ∧
      camera_ctx_take ctx1 10 (some radar_display_msg_zero)
        = some (false, some radar_display_msg_zero, ctx1) ∧
      camera_ctx_take ctx1 11 (some radar_display_msg_zero)
        = some (true, some (msg_of_id 11), ctx1.set 1 { entry_of_id 11 with in_use := false }) := by
  refine ⟨by decide, ?_⟩
  obtain ⟨slot, ctx1, hst, _, _, _, hnew, _, hcons⟩ :=
    camera_ctx_store_spec ctx_full_sample (by decide) (msg_of_id 99)
  have hfull : ∀ (k : Nat) (e : camera_ctx_entry), ctx_full_sample[k]? = some e →
      e.in_use = true := by
    intro k e hk
    have hmem : e ∈ ctx_full_sample := List.mem_iff_getElem?.mpr ⟨k, hk⟩
    simp only [ctx_full_sample, List.mem_cons, List.mem_singleton, List.not_mem_nil,
      or_false] at hmem
    rcases hmem with h | h | h | h | h | h | h | h <;> rw [h] <;> rfl
  obtain ⟨hslot, _, hinv⟩ := hcons hfull
  obtain ⟨h0, h1⟩ := hinv ctx_full_sample_distinct (by decide)
  subst hslot
  exact ⟨ctx1, hst, hnew, h0 (entry_of_id 10) radar_display_msg_zero rfl,
    h1 1 (entry_of_id 11) radar_display_msg_zero (le_refl _) rfl⟩

/-! ## C10: the edge detector -/

/-- C10, as stated, fails at two points. Pulse-A in the ACTIVE state with axle
count 255 leaves the count at 0, not 256 (the counter is a `uint8_t`); and
pulse-B at `now = 3` with start time 5 emits the elapsed time 4294967294, which
is not the integer `3 - 5` (the subtraction is a 32-bit subtraction). -/
theorem sensor_pulse_wraps :
    ((sensor_pulse_a 1000
        { sensor_state := { active := true, axles := 255, start_ms := 0 }
          sample_counter := 0
          sensor_queue := [] }).sensor_state
      = { active := true, axles := 0, start_ms := 0 } ∧ (0 : Nat) ≠ 255 + 1) ∧
    ((sensor_pulse_b 3
        { sensor_state := { active := true, axles := 2, start_ms := 5 }
          sample_counter := 0
          sensor_queue := [] }).sensor_queue
      = [{ id := 0, timestamp_ms := 3, delta_ms := 4294967294, axles := 2 }] ∧
      ((4294967294 : Nat) : Int) ≠ (3 : Int) - 5) := by
  decide

/-- C10 (amended): the step function of the edge detector, for every state and
every time `now`. Pulse-A in IDLE gives ACTIVE with start time `now` and axle
count 1. Pulse-A in ACTIVE keeps the start time and increases the axle count
by 1 modulo 256 (by exactly 1 below 255). Pulse-B in ACTIVE offers exactly one
event to the sensor queue, with the next sample id, the time `now`, the current
axle count and elapsed `(now - start) mod 2 ^ 32` (which is `now - start` when
`start ≤ now < 2 ^ 32`), advances the sample counter and resets the detector to
IDLE with axle count 0 and start time 0. Pulse-B in IDLE changes nothing: no
event, no sample id consumed, same detector state. -/
theorem sensor_step_spec (now : Nat) (g : sensor_globals) :
    (g.sensor_state.active = false →
      sensor_pulse_a now g
        = { g with sensor_state := { active := true, axles := 1, start_ms := now } }) ∧
    (g.sensor_state.active = true →
      sensor_pulse_a now g
        = { g with sensor_state :=
            { active := true
              axles := (g.sensor_state.axles + 1) % U8
              start_ms := g.sensor_state.start_ms } }) ∧
    (g.sensor_state.active = true → g.sensor_state.axles < 255 →
      sensor_pulse_a now g
        = { g with sensor_state :=
            { active := true
              axles := g.sensor_state.axles + 1
              start_ms := g.sensor_state.start_ms } }) ∧
    (g.sensor_state.active = true →
      sensor_pulse_b now g
        = { sensor_state := { active := false, axles := 0, start_ms := 0 }
            sample_counter := (g.sample_counter + 1) % U32
            sensor_queue :=
              if g.sensor_queue.length < SENSOR_QUEUE_LEN then
                g.sensor_queue ++
                  [{ id := g.sample_counter % U32
                     timestamp_ms := now
                     delta_ms := (now + U32 - g.sensor_state.start_ms) % U32
                     axles := g.sensor_state.axles }]
              else g.sensor_queue }) ∧
    (g.sensor_state.start_ms ≤ now → now < U32 →
      (now + U32 - g.sensor_state.start_ms) % U32 = now - g.sensor_state.start_ms) ∧
    (g.sensor_state.active = false → sensor_pulse_b now g = g) := by
  refine ⟨?_, ?_, ?_, ?_, ?_, ?_⟩
  · intro h
    simp [sensor_pulse_a, h, U8]
  · intro h
    simp [sensor_pulse_a, h]
  · intro h hlt
    have hmod : (g.sensor_state.axles + 1) % U8 = g.sensor_state.axles + 1 :=
      Nat.mod_eq_of_lt (by unfold U8; omega)
    simp [sensor_pulse_a, h, hmod]
  · intro h
    simp only [sensor_pulse_b, h, sensor_reset, atomic_inc, k_msgq_put]
    split_ifs <;> simp_all
  · intro hle hlt
    have h1 : now + U32 - g.sensor_state.start_ms = (now - g.sensor_state.start_ms) + U32 := by
      omega
    rw [h1, Nat.add_mod_right]
    exact Nat.mod_eq_of_lt (by omega)
  · intro h
    simp [sensor_pulse_b, h]

/-- Witness of `sensor_step_spec`: pulse-B at time 400 on an ACTIVE detector that
started at 100 with 2 axles, sample counter 7 and an empty queue. -/
theorem sensor_step_spec_witness :
    sensor_pulse_b 400
        { sensor_state := { active := true, axles := 2, start_ms := 100 }
          sample_counter := 7
          sensor_queue := [] }
      = { sensor_state := { active := false, axles := 0, start_ms := 0 }
          sample_counter := 8
          sensor_queue := [{ id := 7, timestamp_ms := 400, delta_ms := 300, axles := 2 }] } ∧
    sensor_pulse_a 400
        { sensor_state := { active := true, axles := 2, start_ms := 100 }
          sample_counter := 7
          sensor_queue := [] }
      = { sensor_state := { active := true, axles := 3, start_ms := 100 }
          sample_counter := 7
          sensor_queue := [] } := by
  have h := sensor_step_spec 400
    { sensor_state := { active := true, axles := 2, start_ms := 100 }
      sample_counter := 7
      sensor_queue := [] }
  refine ⟨?_, ?_⟩
  · rw [h.2.2.2.1 rfl]
    decide
  · rw [h.2.2.1 rfl (by decide)]

/-! ## Sequences of pulses -/

/-- The handler `sensor_pulse_b` in terms of the event it builds: without an event
nothing changes; with one, the detector is reset, the counter advances and the
event is offered to the queue. -/
theorem sensor_pulse_b_eq (now : Nat) (g : sensor_globals) :
    sensor_pulse_b now g =
      match sensor_pulse_b_evt now g with
      | none => g
      | some evt =>
        { sensor_state := { active := false, axles := 0, start_ms := 0 }
          sample_counter := (g.sample_counter + 1) % U32
          sensor_queue := (k_msgq_put SENSOR_QUEUE_LEN g.sensor_queue evt).2 } := by
  cases h : g.sensor_state.active <;>
    simp [sensor_pulse_b, sensor_pulse_b_evt, h, sensor_reset, atomic_inc]

/-- The ids of the events built along a run count up from the sample counter,
modulo `2 ^ 32`. -/
theorem sensor_run_ids (ps : List sensor_pulse) :
    ∀ g : sensor_globals,
      (sensor_run g ps).2.map (fun e => e.id)
        = (List.range (sensor_run g ps).2.length).map
            (fun i => (g.sample_counter + i) % U32) := by
  induction ps with
  | nil => intro g; rfl
  | cons p ps ih =>
    intro g
    cases p with
    | a now =>
      have hc : (sensor_pulse_a now g).sample_counter = g.sample_counter := rfl
      simp only [sensor_run]
      rw [ih (sensor_pulse_a now g), hc]
    | b now =>
      simp only [sensor_run]
      cases h : g.sensor_state.active with
      | false =>
        have hb : sensor_pulse_b now g = g := by simp [sensor_pulse_b, h]
        have he : sensor_pulse_b_evt now g = none := by simp [sensor_pulse_b_evt, h]
        rw [hb, he]
        simpa using ih g
      | true =>
        have hc : (sensor_pulse_b now g).sample_counter = (g.sample_counter + 1) % U32 := by
          simp [sensor_pulse_b, h, atomic_inc]
        have he : sensor_pulse_b_evt now g
            = some
                { id := g.sample_counter % U32
                  timestamp_ms := now
                  delta_ms := (now + U32 - g.sensor_state.start_ms) % U32
                  axles := g.sensor_state.axles } := by
          simp [sensor_pulse_b_evt, h, atomic_inc]
        rw [he]
        simp only [Option.toList, List.singleton_append, List.map_cons, List.length_cons,
          List.range_succ_eq_map, List.map_map]
        rw [ih (sensor_pulse_b now g), hc]
        refine congrArg₂ List.cons (by simp) ?_
        apply List.map_congr_left
        intro i _
        simp only [Function.comp]
        rw [Nat.add_mod ((g.sample_counter + 1) % U32) i, Nat.mod_mod,
          ← Nat.add_mod, Nat.add_assoc, Nat.add_comm 1 i]

/-- Pulse-A handlers on an ACTIVE detector only add to the axle count, as long
as the count stays below `2 ^ 8`. -/
theorem sensor_run_pulses_a (ts : List Nat) (rest : List sensor_pulse) :
    ∀ g : sensor_globals, g.sensor_state.active = true →
      g.sensor_state.axles + ts.length < U8 →
      sensor_run g (ts.map sensor_pulse.a ++ rest)
        = sensor_run
            { g with sensor_state :=
                { active := true
                  axles := g.sensor_state.axles + ts.length
                  start_ms := g.sensor_state.start_ms } }
            rest := by
  induction ts with
  | nil =>
    intro g hact _
    have hg : ({ g with sensor_state :=
        { active := true
          axles := g.sensor_state.axles + ([] : List Nat).length
          start_ms := g.sensor_state.start_ms } } : sensor_globals) = g := by
      obtain ⟨⟨act, ax, st⟩, c, q⟩ := g
      simp only at hact
      subst hact
      rfl
    rw [hg]
    rfl
  | cons t ts ih =>
    intro g hact hlt
    simp only [List.length_cons] at hlt
    have hmod : (g.sensor_state.axles + 1) % U8 = g.sensor_state.axles + 1 :=
      Nat.mod_eq_of_lt (by omega)
    have hstep : sensor_pulse_a t g
        = { g with sensor_state :=
            { active := true
              axles := g.sensor_state.axles + 1
              start_ms := g.sensor_state.start_ms } } := by
      simp [sensor_pulse_a, hact, hmod]
    have hrun : sensor_run g ((t :: ts).map sensor_pulse.a ++ rest)
        = sensor_run (sensor_pulse_a t g) (ts.map sensor_pulse.a ++ rest) := rfl
    have hih := ih
      { g with sensor_state :=
          { active := true
            axles := g.sensor_state.axles + 1
            start_ms := g.sensor_state.start_ms } }
      rfl (by simp only; omega)
    rw [hrun, hstep, hih]
    simp only [List.length_cons]
    have hax : g.sensor_state.axles + 1 + ts.length = g.sensor_state.axles + (ts.length + 1) := by
      omega
    rw [hax]

/-! ## C11: sample ids -/

/-- C11: along every sequence of pulse-A and pulse-B calls from program start that
completes fewer than `2 ^ 32` crossings, the ids of the crossing events are
0, 1, 2, ... in order: the first is 0, each next one is the previous plus one,
and no two events share an id. -/
theorem sample_ids_increasing (ps : List sensor_pulse)
    (hlt : (sensor_run sensor_globals_init ps).2.length < U32) :
    (sensor_run sensor_globals_init ps).2.map (fun e => e.id)
        = List.range (sensor_run sensor_globals_init ps).2.length ∧
    (∀ e : sensor_event, (sensor_run sensor_globals_init ps).2[0]? = some e → e.id = 0) ∧
    (∀ (i : Nat) (e1 e2 : sensor_event),
      (sensor_run sensor_globals_init ps).2[i]? = some e1 →
      (sensor_run sensor_globals_init ps).2[i + 1]? = some e2 →
      e2.id = e1.id + 1) ∧
    (∀ (i j : Nat) (ei ej : sensor_event),
      (sensor_run sensor_globals_init ps).2[i]? = some ei →
      (sensor_run sensor_globals_init ps).2[j]? = some ej →
      i < j → ei.id < ej.id) ∧
    (∀ (i j : Nat) (ei ej : sensor_event),
      (sensor_run sensor_globals_init ps).2[i]? = some ei →
      (sensor_run sensor_globals_init ps).2[j]? = some ej →
      ei.id = ej.id → i = j) := by
  have hmap : (sensor_run sensor_globals_init ps).2.map (fun e => e.id)
      = List.range (sensor_run sensor_globals_init ps).2.length := by
    rw [sensor_run_ids ps sensor_globals_init]
    conv_rhs => rw [← List.map_id (List.range _)]
    apply List.map_congr_left
    intro i hi
    have hi2 : i < (sensor_run sensor_globals_init ps).2.length := List.mem_range.mp hi
    have h0 : sensor_globals_init.sample_counter = 0 := rfl
    rw [h0, Nat.zero_add]
    exact Nat.mod_eq_of_lt (by omega)
  have hid : ∀ (i : Nat) (e : sensor_event),
      (sensor_run sensor_globals_init ps).2[i]? = some e → e.id = i := by
    intro i e hi
    have hlen : i < (sensor_run sensor_globals_init ps).2.length :=
      (List.getElem?_eq_some.mp hi).1
    have h1 : ((sensor_run sensor_globals_init ps).2.map (fun e => e.id))[i]? = some e.id := by
      rw [List.getElem?_map, hi]
      rfl
    rw [hmap, List.getElem?_range hlen] at h1
    exact (Option.some.inj h1).symm
  refine ⟨hmap, fun e h => hid 0 e h, ?_, ?_, ?_⟩
  · intro i e1 e2 h1 h2
    rw [hid i e1 h1, hid (i + 1) e2 h2]
  · intro i j ei ej h1 h2 hij
    rw [hid i ei h1, hid j ej h2]
    exact hij
  · intro i j ei ej h1 h2 h
    rw [hid i ei h1, hid j ej h2] at h
    exact h

/-- Witness of `sample_ids_increasing`: two vehicles, the second after a stray
pulse-B, get the ids 0 and 1. -/
theorem sample_ids_increasing_witness :
    (sensor_run sensor_globals_init
        [sensor_pulse.a 0, sensor_pulse.a 50, sensor_pulse.b 400, sensor_pulse.b 500,
         sensor_pulse.a 1000, sensor_pulse.b 1400]).2.length < U32 ∧
    (sensor_run sensor_globals_init
        [sensor_pulse.a 0, sensor_pulse.a 50, sensor_pulse.b 400, sensor_pulse.b 500,
         sensor_pulse.a 1000, sensor_pulse.b 1400]).2.map (fun e => e.id) = [0, 1] := by
  refine ⟨by decide, ?_⟩
  rw [(sample_ids_increasing
    [sensor_pulse.a 0, sensor_pulse.a 50, sensor_pulse.b 400, sensor_pulse.b 500,
     sensor_pulse.a 1000, sensor_pulse.b 1400] (by decide)).1]
  decide

/-! ## C17: full sensor queue -/

/-- C17: when pulse-B completes a crossing on an ACTIVE detector while the sensor
queue is full, the queue is unchanged (the event is dropped), and the detector
state afterwards is the IDLE state with axle count 0 and start time 0, the very
state the same pulse produces when the queue has room (where the event is
appended); the sample id is consumed in both cases. -/
theorem sensor_pulse_b_queue_full (now : Nat) (g : sensor_globals)
    (hact : g.sensor_state.active = true)
    (hfull : g.sensor_queue.length = SENSOR_QUEUE_LEN)
    (q : List sensor_event) (hroom : q.length < SENSOR_QUEUE_LEN) :
    (sensor_pulse_b now g).sensor_queue = g.sensor_queue ∧
    (sensor_pulse_b now g).sensor_state = { active := false, axles := 0, start_ms := 0 } ∧
    (sensor_pulse_b now g).sensor_state
      = (sensor_pulse_b now { g with sensor_queue := q }).sensor_state ∧
    (sensor_pulse_b now g).sample_counter
      = (sensor_pulse_b now { g with sensor_queue := q }).sample_counter ∧
    (sensor_pulse_b now { g with sensor_queue := q }).sensor_queue
      = q ++ [{ id := g.sample_counter % U32
                timestamp_ms := now
                delta_ms := (now + U32 - g.sensor_state.start_ms) % U32
                axles := g.sensor_state.axles }] := by
  have hnot : ¬ g.sensor_queue.length < SENSOR_QUEUE_LEN := by omega
  refine ⟨?_, ?_, ?_, ?_, ?_⟩
  · simp [sensor_pulse_b, hact, k_msgq_put, hnot]
  · simp [sensor_pulse_b, hact, sensor_reset]
  · simp [sensor_pulse_b, hact, sensor_reset]
  · simp [sensor_pulse_b, hact, atomic_inc]
  · simp [sensor_pulse_b, hact, k_msgq_put, hroom, atomic_inc]

/-- Witness of `sensor_pulse_b_queue_full`: a detector with 2 axles since time 100
and eight queued events, pulse-B at time 400. -/
theorem sensor_pulse_b_queue_full_witness :
    (sensor_pulse_b 400
        { sensor_state := { active := true, axles := 2, start_ms := 100 }
          sample_counter := 8
          sensor_queue := List.replicate 8 default }).sensor_queue
      = List.replicate 8 default ∧
    (sensor_pulse_b 400
        { sensor_state := { active := true, axles := 2, start_ms := 100 }
          sample_counter := 8
          sensor_queue := List.replicate 8 default }).sensor_state
      = { active := false, axles := 0, start_ms := 0 } :=
  ⟨(sensor_pulse_b_queue_full 400
      { sensor_state := { active := true, axles := 2, start_ms := 100 }
        sample_counter := 8
        sensor_queue := List.replicate 8 default } rfl (by decide) [] (by decide)).1,
    (sensor_pulse_b_queue_full 400
      { sensor_state := { active := true, axles := 2, start_ms := 100 }
        sample_counter := 8
        sensor_queue := List.replicate 8 default } rfl (by decide) [] (by decide)).2.1⟩

/-! ## C19: one vehicle -/

/-- C19: from any IDLE state, `n` pulse-A calls at times `t1, ...` (`1 ≤ n ≤ 255`)
followed by one pulse-B call at time `t` build exactly one crossing event, with
axle count `n` and elapsed `(t - t1) mod 2 ^ 32` (`t - t1` when
`t1 ≤ t < 2 ^ 32`): the later pulse-A calls do not move the start time. The
event is offered to the sensor queue and the detector is left IDLE with axle
count 0. -/
theorem sensor_crossing_spec (g : sensor_globals) (hidle : g.sensor_state.active = false)
    (t1 : Nat) (ts : List Nat) (t : Nat) (hn : ts.length + 1 ≤ 255) :
    sensor_run g ((t1 :: ts).map sensor_pulse.a ++ [sensor_pulse.b t])
      = ({ sensor_state := { active := false, axles := 0, start_ms := 0 }
           sample_counter := (g.sample_counter + 1) % U32
           sensor_queue :=
             (k_msgq_put SENSOR_QUEUE_LEN g.sensor_queue
               { id := g.sample_counter % U32
                 timestamp_ms := t
                 delta_ms := (t + U32 - t1) % U32
                 axles := ts.length + 1 }).2 },
         [{ id := g.sample_counter % U32
            timestamp_ms := t
            delta_ms := (t + U32 - t1) % U32
            axles := ts.length + 1 }]) ∧
    (t1 ≤ t → t < U32 → (t + U32 - t1) % U32 = t - t1) := by
  constructor
  · have hfirst : sensor_pulse_a t1 g
        = { g with sensor_state := { active := true, axles := 1, start_ms := t1 } } := by
      simp [sensor_pulse_a, hidle, U8]
    have hrun : sensor_run g ((t1 :: ts).map sensor_pulse.a ++ [sensor_pulse.b t])
        = sensor_run (sensor_pulse_a t1 g) (ts.map sensor_pulse.a ++ [sensor_pulse.b t]) := rfl
    have hrest := sensor_run_pulses_a ts [sensor_pulse.b t]
      { g with sensor_state := { active := true, axles := 1, start_ms := t1 } }
      rfl (by simp only [U8]; omega)
    rw [hrun, hfirst, hrest]
    simp [sensor_run, sensor_pulse_b, sensor_pulse_b_evt, sensor_reset, atomic_inc,
      Nat.add_comm 1]
  · intro hle hlt
    have h1 : t + U32 - t1 = (t - t1) + U32 := by omega
    rw [h1, Nat.add_mod_right]
    exact Nat.mod_eq_of_lt (by omega)

/-- Witness of `sensor_crossing_spec`: three axles at times 0, 50, 100 and pulse-B
at time 300, from program start. -/
theorem sensor_crossing_spec_witness :
    sensor_run sensor_globals_init
        [sensor_pulse.a 0, sensor_pulse.a 50, sensor_pulse.a 100, sensor_pulse.b 300]
      = ({ sensor_state := { active := false, axles := 0, start_ms := 0 }
           sample_counter := 1
           sensor_queue := [{ id := 0, timestamp_ms := 300, delta_ms := 300, axles := 3 }] },
         [{ id := 0, timestamp_ms := 300, delta_ms := 300, axles := 3 }]) := by
  have h := (sensor_crossing_spec sensor_globals_init rfl 0 [50, 100] 300 (by decide)).1
  rw [show [sensor_pulse.a 0, sensor_pulse.a 50, sensor_pulse.a 100, sensor_pulse.b 300]
      = (0 :: [50, 100]).map sensor_pulse.a ++ [sensor_pulse.b 300] from rfl, h]
  decide

/-! ## C12, C13: the control stage -/

/-- The classification that `radar_eval_status` writes, as a record. -/
theorem radar_eval_status_some (speed : Nat) (type : radar_vehicle_type)
    (percent light heavy : Nat) (out : radar_classification) :
    radar_eval_status speed type percent light heavy (some out)
      = some
          { type := type
            limit_kph := if type = RADAR_VEHICLE_HEAVY then heavy else light
            warning_kph :=
              (((if type = RADAR_VEHICLE_HEAVY then heavy else light) * percent) % U32) / 100
            speed_kph := speed
            status :=
              if speed > (if type = RADAR_VEHICLE_HEAVY then heavy else light) then
                RADAR_STATUS_INFRACTION
              else if speed ≥
                  (((if type = RADAR_VEHICLE_HEAVY then heavy else light) * percent) % U32)
                    / 100 then
                RADAR_STATUS_WARNING
              else RADAR_STATUS_NORMAL } :=
  rfl

/-- C12: one iteration of the control stage, for every event, configuration and
state with a table of `CAMERA_CTX_MAX` slots. It offers exactly one record to
the display queue, carrying the event's id, the derived classification, an
empty plate and plate-validity false. The derived status is INFRACTION iff the
measured speed exceeds the class limit; in that case the record is stored in
the correlation table (its id is pending afterwards) and one request with the
event's id and the class, speed and limit of the classification is published;
otherwise the table and the request channel are unchanged. -/
theorem control_thread_iter_spec (cfg : radar_config) (evt : sensor_event)
    (g : pipeline_globals) (hlen : g.camera_ctx.length = CAMERA_CTX_MAX) :
    ∃ (c : radar_classification) (g1 : pipeline_globals),
      radar_eval_status
          (radar_calc_speed_kph cfg.CONFIG_RADAR_SENSOR_DISTANCE_MM evt.delta_ms)
          (radar_classify_vehicle evt.axles)
          cfg.CONFIG_RADAR_WARNING_THRESHOLD_PERCENT
          cfg.CONFIG_RADAR_SPEED_LIMIT_LIGHT_KMH
          cfg.CONFIG_RADAR_SPEED_LIMIT_HEAVY_KMH
          (some radar_classification_zero) = some c ∧
      control_thread_iter cfg evt g = some g1 ∧
      g1.display_queue
        = (k_msgq_put DISPLAY_QUEUE_LEN g.display_queue
            { id := evt.id, cls := c, plate_valid := false, plate := [] }).2 ∧
      (g.display_queue.length < DISPLAY_QUEUE_LEN →
        g1.display_queue
          = g.display_queue ++ [{ id := evt.id, cls := c, plate_valid := false, plate := [] }]) ∧
      (c.status = RADAR_STATUS_INFRACTION ↔ c.speed_kph > c.limit_kph) ∧
      (c.status = RADAR_STATUS_INFRACTION →
        camera_ctx_store g.camera_ctx
            (some { id := evt.id, cls := c, plate_valid := false, plate := [] })
          = some g1.camera_ctx ∧
        ctx_pending g1.camera_ctx evt.id = true ∧
        g1.camera_request_chan
          = g.camera_request_chan ++
              [{ sample_id := evt.id
                 type := c.type
                 speed_kph := c.speed_kph
                 limit_kph := c.limit_kph }]) ∧
      (c.status ≠ RADAR_STATUS_INFRACTION →
        g1.camera_ctx = g.camera_ctx ∧ g1.camera_request_chan = g.camera_request_chan) := by
  have hc := radar_eval_status_some
    (radar_calc_speed_kph cfg.CONFIG_RADAR_SENSOR_DISTANCE_MM evt.delta_ms)
    (radar_classify_vehicle evt.axles)
    cfg.CONFIG_RADAR_WARNING_THRESHOLD_PERCENT
    cfg.CONFIG_RADAR_SPEED_LIMIT_LIGHT_KMH
    cfg.CONFIG_RADAR_SPEED_LIMIT_HEAVY_KMH radar_classification_zero
  generalize hcdef :
    ({ type := radar_classify_vehicle evt.axles
       limit_kph := _
       warning_kph := _
       speed_kph := _
       status := _ } : radar_classification) = c at hc
  have hstatus : c.status = RADAR_STATUS_INFRACTION ↔ c.speed_kph > c.limit_kph := by
    subst hcdef
    dsimp only
    split_ifs <;> simp_all
  by_cases hinf : c.status = RADAR_STATUS_INFRACTION
  · obtain ⟨ctx1, hst, hpend⟩ :
        ∃ ctx1, camera_ctx_store g.camera_ctx
            (some { id := evt.id, cls := c, plate_valid := false, plate := [] }) = some ctx1 ∧
          ctx_pending ctx1 evt.id = true := by
      rcases camera_ctx_store_cases g.camera_ctx
          { id := evt.id, cls := c, plate_valid := false, plate := [] } hlen with
        ⟨k, e, hk, _, _, h⟩ | ⟨_, h⟩
      · refine ⟨_, h, (ctx_pending_iff _ _).mpr
          ⟨k, { in_use := true, id := evt.id
                msg := { id := evt.id, cls := c, plate_valid := false, plate := [] } },
            ?_, rfl, rfl⟩⟩
        exact List.getElem?_set_self (List.getElem?_eq_some.mp hk).1
      · refine ⟨_, h, (ctx_pending_iff _ _).mpr
          ⟨0, { in_use := true, id := evt.id
                msg := { id := evt.id, cls := c, plate_valid := false, plate := [] } },
            ?_, rfl, rfl⟩⟩
        exact List.getElem?_set_self (by rw [hlen]; decide)
    refine ⟨c,
      { display_queue :=
          (k_msgq_put DISPLAY_QUEUE_LEN g.display_queue
            { id := evt.id, cls := c, plate_valid := false, plate := [] }).2
        camera_ctx := ctx1
        camera_request_chan :=
          g.camera_request_chan ++
            [{ sample_id := evt.id
               type := c.type
               speed_kph := c.speed_kph
               limit_kph := c.limit_kph }] },
      hc, ?_, rfl, ?_, hstatus, ?_, ?_⟩
    · simp only [control_thread_iter, hc, Option.getD_some, hinf, if_true, hst, zbus_chan_pub]
    · intro hroom
      simp [k_msgq_put, hroom]
    · intro _
      exact ⟨hst, hpend, rfl⟩
    · intro hne
      exact absurd hinf hne
  · refine ⟨c,
      { g with display_queue :=
          (k_msgq_put DISPLAY_QUEUE_LEN g.display_queue
            { id := evt.id, cls := c, plate_valid := false, plate := [] }).2 },
      hc, ?_, rfl, ?_, hstatus, ?_, ?_⟩
    · simp only [control_thread_iter, hc, Option.getD_some, hinf, if_false]
    · intro hroom
      simp [k_msgq_put, hroom]
    · intro h
      exact absurd h hinf
    · intro _
      exact ⟨rfl, rfl⟩

/-- Witness of `control_thread_iter_spec`: a three-axle event with elapsed 100 ms
at distance 4000 mm and heavy limit 80, on the empty table and empty queues. -/
theorem control_thread_iter_spec_witness :
    camera_ctx_init.length = CAMERA_CTX_MAX ∧
    ∃ (c : radar_classification) (g1 : pipeline_globals),
      control_thread_iter
          { CONFIG_RADAR_SENSOR_DISTANCE_MM := 4000
            CONFIG_RADAR_WARNING_THRESHOLD_PERCENT := 90
            CONFIG_RADAR_SPEED_LIMIT_LIGHT_KMH := 60
            CONFIG_RADAR_SPEED_LIMIT_HEAVY_KMH := 80
            CONFIG_RADAR_CAMERA_FAILURE_RATE_PERCENT := 10 }
          { id := 7, timestamp_ms := 1000, delta_ms := 100, axles := 3 }
          { display_queue := [], camera_ctx := camera_ctx_init, camera_request_chan := [] }
        = some g1 ∧
      c.status = RADAR_STATUS_INFRACTION ∧
      g1.display_queue = [{ id := 7, cls := c, plate_valid := false, plate := [] }] ∧
      g1.camera_request_chan
        = [{ sample_id := 7, type := c.type, speed_kph := c.speed_kph,
             limit_kph := c.limit_kph }] := by
  refine ⟨by decide, ?_⟩
  obtain ⟨c, g1, hc, hiter, _, hq, _, hinf, _⟩ :=
    control_thread_iter_spec
      { CONFIG_RADAR_SENSOR_DISTANCE_MM := 4000
        CONFIG_RADAR_WARNING_THRESHOLD_PERCENT := 90
        CONFIG_RADAR_SPEED_LIMIT_LIGHT_KMH := 60
        CONFIG_RADAR_SPEED_LIMIT_HEAVY_KMH := 80
        CONFIG_RADAR_CAMERA_FAILURE_RATE_PERCENT := 10 }
      { id := 7, timestamp_ms := 1000, delta_ms := 100, axles := 3 }
      { display_queue := [], camera_ctx := camera_ctx_init, camera_request_chan := [] }
      (by decide)
  have hstat : c.status = RADAR_STATUS_INFRACTION := by
    have hval : radar_eval_status (radar_calc_speed_kph 4000 100) (radar_classify_vehicle 3)
        90 60 80 (some radar_classification_zero)
        = some
            { type := RADAR_VEHICLE_HEAVY
              speed_kph := 144
              limit_kph := 80
              warning_kph := 72
              status := RADAR_STATUS_INFRACTION } := by decide
    have hc1 : radar_eval_status (radar_calc_speed_kph 4000 100) (radar_classify_vehicle 3)
        90 60 80 (some radar_classification_zero) = some c := hc
    rw [hval] at hc1
    rw [← Option.some.inj hc1]
  refine ⟨c, g1, hiter, hstat, ?_, ?_⟩
  · simpa using hq (by decide)
  · simpa using (hinf hstat).2.2

/-- C13: for the event with axle count 3 and elapsed 300 ms, with distance
4000 mm, heavy limit 80, warning percent 90 and any light limit, the control
stage derives class HEAVY, speed 48, limit 80, warning threshold 72 and status
NORMAL; the iteration offers that record to the display queue, publishes no
capture request and leaves the correlation table unchanged. -/
theorem control_thread_normal_scenario (light rate id ts : Nat) (g : pipeline_globals) :
    radar_classify_vehicle 3 = RADAR_VEHICLE_HEAVY ∧
    radar_calc_speed_kph 4000 300 = 48 ∧
    radar_eval_status 48 RADAR_VEHICLE_HEAVY 90 light 80 (some radar_classification_zero)
      = some
          { type := RADAR_VEHICLE_HEAVY
            speed_kph := 48
            limit_kph := 80
            warning_kph := 72
            status := RADAR_STATUS_NORMAL } ∧
    control_thread_iter
        { CONFIG_RADAR_SENSOR_DISTANCE_MM := 4000
          CONFIG_RADAR_WARNING_THRESHOLD_PERCENT := 90
          CONFIG_RADAR_SPEED_LIMIT_LIGHT_KMH := light
          CONFIG_RADAR_SPEED_LIMIT_HEAVY_KMH := 80
          CONFIG_RADAR_CAMERA_FAILURE_RATE_PERCENT := rate }
        { id := id, timestamp_ms := ts, delta_ms := 300, axles := 3 }
        g
      = some
          { display_queue :=
              (k_msgq_put DISPLAY_QUEUE_LEN g.display_queue
                { id := id
                  cls :=
                    { type := RADAR_VEHICLE_HEAVY
                      speed_kph := 48
                      limit_kph := 80
                      warning_kph := 72
                      status := RADAR_STATUS_NORMAL }
                  plate_valid := false
                  plate := [] }).2
            camera_ctx := g.camera_ctx
            camera_request_chan := g.camera_request_chan } := by
  have hcl : radar_classify_vehicle 3 = RADAR_VEHICLE_HEAVY := by decide
  have hsp : radar_calc_speed_kph 4000 300 = 48 := by decide
  have hev : radar_eval_status 48 RADAR_VEHICLE_HEAVY 90 light 80
      (some radar_classification_zero)
      = some
          { type := RADAR_VEHICLE_HEAVY
            speed_kph := 48
            limit_kph := 80
            warning_kph := 72
            status := RADAR_STATUS_NORMAL } := by
    rw [radar_eval_status_some]
    simp [U32]
  refine ⟨hcl, hsp, hev, ?_⟩
  simp only [control_thread_iter, hcl, hsp, hev, Option.getD_some]
  rfl

/-! ## C14, C15: the result listener -/

/-- The listener on a response whose id is pending, `k` being the first in-use
slot that holds it: the entry is freed and one record is offered to the
display queue. -/
theorem camera_listener_iter_hit (resp : camera_response) (g : pipeline_globals)
    (k : Nat) (e : camera_ctx_entry)
    (hlen : g.camera_ctx.length = CAMERA_CTX_MAX)
    (hk : g.camera_ctx[k]? = some e) (hu : e.in_use = true) (hid : e.id = resp.sample_id)
    (hfirst : ∀ (j : Nat) (x : camera_ctx_entry), j < k → g.camera_ctx[j]? = some x →
      ¬ (x.in_use = true ∧ x.id = resp.sample_id)) :
    camera_listener_iter resp g
      = some
          { display_queue :=
              (k_msgq_put DISPLAY_QUEUE_LEN g.display_queue
                { id := e.msg.id
                  cls := e.msg.cls
                  plate_valid := if resp.success then resp.plate_valid else false
                  plate :=
                    if resp.success then snprintf PLATE_MAX_LEN resp.plate
                    else ['F', 'A', 'L', 'H', 'A'] }).2
            camera_ctx := g.camera_ctx.set k { e with in_use := false }
            camera_request_chan := g.camera_request_chan } := by
  have htk := camera_ctx_take_hit g.camera_ctx resp.sample_id (some radar_display_msg_zero)
    k e hlen hk hu hid hfirst
  cases hs : resp.success
  · simp only [camera_listener_iter, hs, htk]
    rfl
  · simp only [camera_listener_iter, hs, htk]
    rfl

/-- The listener on a response whose id is not pending changes nothing. -/
theorem camera_listener_iter_miss (resp : camera_response) (g : pipeline_globals)
    (hlen : g.camera_ctx.length = CAMERA_CTX_MAX)
    (hnone : ∀ (k : Nat) (e : camera_ctx_entry), g.camera_ctx[k]? = some e →
      ¬ (e.in_use = true ∧ e.id = resp.sample_id)) :
    camera_listener_iter resp g = some g := by
  have htk := camera_ctx_take_miss g.camera_ctx resp.sample_id (some radar_display_msg_zero)
    hlen hnone
  cases hs : resp.success
  · simp only [camera_listener_iter, hs, htk]
    rfl
  · simp only [camera_listener_iter, hs, htk]
    rfl

/-- A string that fits the plate buffer is copied whole by `snprintf`. -/
theorem snprintf_fits (text : List Char) (h : text.length < PLATE_MAX_LEN) :
    snprintf PLATE_MAX_LEN text = text := by
  unfold snprintf
  exact List.take_of_length_le (by omega)

/-- C15: one iteration of the result listener, for every table of
`CAMERA_CTX_MAX` slots and every capture result whose plate fits the plate
buffer. If the result's id is pending, the first in-use slot `k` holding it is
freed and exactly one record is offered to the display queue, with the id and
classification of the stored record; on success it carries the result's plate
and plate-validity flag, on failure the plate "FALHA" and plate-validity false.
If the id is not pending, nothing is offered and nothing changes. -/
theorem camera_listener_iter_spec (resp : camera_response) (g : pipeline_globals)
    (hlen : g.camera_ctx.length = CAMERA_CTX_MAX)
    (hplate : resp.plate.length < PLATE_MAX_LEN) :
    (ctx_pending g.camera_ctx resp.sample_id = true →
      ∃ (k : Nat) (e : camera_ctx_entry) (out : radar_display_msg),
        g.camera_ctx[k]? = some e ∧ e.in_use = true ∧ e.id = resp.sample_id ∧
        (∀ (j : Nat) (x : camera_ctx_entry), j < k → g.camera_ctx[j]? = some x →
          ¬ (x.in_use = true ∧ x.id = resp.sample_id)) ∧
        camera_listener_iter resp g
          = some
              { display_queue := (k_msgq_put DISPLAY_QUEUE_LEN g.display_queue out).2
                camera_ctx := g.camera_ctx.set k { e with in_use := false }
                camera_request_chan := g.camera_request_chan } ∧
        (g.display_queue.length < DISPLAY_QUEUE_LEN →
          (k_msgq_put DISPLAY_QUEUE_LEN g.display_queue out).2 = g.display_queue ++ [out]) ∧
        out.id = e.msg.id ∧ out.cls = e.msg.cls ∧
        (resp.success = true →
          out.plate = resp.plate ∧ out.plate_valid = resp.plate_valid) ∧
        (resp.success = false →
          out.plate = ['F', 'A', 'L', 'H', 'A'] ∧ out.plate_valid = false)) ∧
    (ctx_pending g.camera_ctx resp.sample_id = false →
      camera_listener_iter resp g = some g) := by
  constructor
  · intro hp
    obtain ⟨k0, e0, hk0, hu0, hid0⟩ := (ctx_pending_iff _ _).mp hp
    obtain ⟨k, e, hk, he, hfirst⟩ :=
      exists_first_slot g.camera_ctx (fun e => e.in_use && e.id == resp.sample_id)
        ⟨k0, e0, hk0, (slot_hit_iff resp.sample_id e0).mpr ⟨hu0, hid0⟩⟩
    obtain ⟨hu, hid⟩ := (slot_hit_iff resp.sample_id e).mp he
    have hfirst1 : ∀ (j : Nat) (x : camera_ctx_entry), j < k → g.camera_ctx[j]? = some x →
        ¬ (x.in_use = true ∧ x.id = resp.sample_id) :=
      fun j x hj hx => (slot_miss_iff resp.sample_id x).mp (hfirst j x hj hx)
    refine ⟨k, e,
      { id := e.msg.id
        cls := e.msg.cls
        plate_valid := if resp.success then resp.plate_valid else false
        plate :=
          if resp.success then snprintf PLATE_MAX_LEN resp.plate
          else ['F', 'A', 'L', 'H', 'A'] },
      hk, hu, hid, hfirst1,
      camera_listener_iter_hit resp g k e hlen hk hu hid hfirst1, ?_, rfl, rfl, ?_, ?_⟩
    · intro hroom
      simp [k_msgq_put, hroom]
    · intro hs
      simp only [hs, if_true]
      exact ⟨snprintf_fits resp.plate hplate, trivial⟩
    · intro hs
      simp [hs]
  · intro hnp
    refine camera_listener_iter_miss resp g hlen ?_
    intro k e hk hhit
    have hp : ctx_pending g.camera_ctx resp.sample_id = true :=
      (ctx_pending_iff _ _).mpr ⟨k, e, hk, hhit.1, hhit.2⟩
    rw [hnp] at hp
    exact absurd hp (by decide)

/-- Witness of `camera_listener_iter_spec`: a failed capture for the pending id 13
of the full sample table. -/
theorem camera_listener_iter_spec_witness :
    (ctx_full_sample.length = CAMERA_CTX_MAX ∧
      ctx_pending ctx_full_sample 13 = true) ∧
    ∃ (k : Nat) (e : camera_ctx_entry) (out : radar_display_msg),
      camera_listener_iter
          { sample_id := 13, success := false, plate_valid := false,
            plate := ['X', 'X', '0', '0', '4', '2'] }
          { display_queue := [], camera_ctx := ctx_full_sample, camera_request_chan := [] }
        = some
            { display_queue := [out]
              camera_ctx := ctx_full_sample.set k { e with in_use := false }
              camera_request_chan := [] } ∧
      out.plate = ['F', 'A', 'L', 'H', 'A'] ∧ out.plate_valid = false := by
  refine ⟨by decide, ?_⟩
  obtain ⟨k, e, out, _, _, _, _, hiter, hq, _, _, _, hfail⟩ :=
    (camera_listener_iter_spec
      { sample_id := 13, success := false, plate_valid := false,
        plate := ['X', 'X', '0', '0', '4', '2'] }
      { display_queue := [], camera_ctx := ctx_full_sample, camera_request_chan := [] }
      (by decide) (by decide)).1 (by decide)
  refine ⟨k, e, out, ?_, hfail rfl⟩
  rw [hiter, hq (by decide)]
  rfl

/-- Once the only entry of a one-entry table has been freed, no slot is in
use. -/
theorem ctx_single_freed (x y : camera_ctx_entry) (hy : y.in_use = false) :
    ∀ (k : Nat) (e : camera_ctx_entry),
      ((camera_ctx_init.set 0 x).set 0 y)[k]? = some e → e.in_use = false := by
  intro k e hk
  rw [List.getElem?_set] at hk
  by_cases h0 : 0 = k
  · rw [if_pos h0] at hk
    split_ifs at hk
    cases hk
    exact hy
  · rw [if_neg h0, List.getElem?_set_ne h0] at hk
    have hmem : e ∈ camera_ctx_init := List.mem_iff_getElem?.mpr ⟨k, hk⟩
    rw [camera_ctx_init, List.mem_replicate] at hmem
    rw [hmem.2]

/-- C14: the infraction scenario. For the event with axle count 3 and elapsed
100 ms (distance 4000 mm, heavy limit 80, warning percent 90), on the empty
correlation table and a display queue with room, the control stage derives
speed 144 and status INFRACTION, enqueues the record without a plate and
publishes one capture request for the event's id. When the listener then
processes a successful result for that id (the display queue having room),
exactly one record is enqueued, with the event's id, the same classification
and the result's plate and plate-validity; processing the same result again
enqueues nothing and changes nothing. -/
theorem infraction_scenario (light rate id ts : Nat) (q : List radar_display_msg)
    (hq : q.length < DISPLAY_QUEUE_LEN) :
    radar_calc_speed_kph 4000 100 = 144 ∧
    ∃ g1 : pipeline_globals,
      control_thread_iter
          { CONFIG_RADAR_SENSOR_DISTANCE_MM := 4000
            CONFIG_RADAR_WARNING_THRESHOLD_PERCENT := 90
            CONFIG_RADAR_SPEED_LIMIT_LIGHT_KMH := light
            CONFIG_RADAR_SPEED_LIMIT_HEAVY_KMH := 80
            CONFIG_RADAR_CAMERA_FAILURE_RATE_PERCENT := rate }
          { id := id, timestamp_ms := ts, delta_ms := 100, axles := 3 }
          { display_queue := q, camera_ctx := camera_ctx_init, camera_request_chan := [] }
        = some g1 ∧
      g1.display_queue
        = q ++
          [{ id := id
             cls :=
               { type := RADAR_VEHICLE_HEAVY
                 speed_kph := 144
                 limit_kph := 80
                 warning_kph := 72
                 status := RADAR_STATUS_INFRACTION }
             plate_valid := false
             plate := [] }] ∧
      g1.camera_request_chan
        = [{ sample_id := id, type := RADAR_VEHICLE_HEAVY, speed_kph := 144, limit_kph := 80 }] ∧
      ∀ (resp : camera_response) (q1 : List radar_display_msg),
        resp.sample_id = id → resp.success = true →
        resp.plate.length < PLATE_MAX_LEN → q1.length < DISPLAY_QUEUE_LEN →
        ∃ g2 : pipeline_globals,
          camera_listener_iter resp { g1 with display_queue := q1 } = some g2 ∧
          g2.display_queue
            = q1 ++
              [{ id := id
                 cls :=
                   { type := RADAR_VEHICLE_HEAVY
                     speed_kph := 144
                     limit_kph := 80
                     warning_kph := 72
                     status := RADAR_STATUS_INFRACTION }
                 plate_valid := resp.plate_valid
                 plate := resp.plate }] ∧
          ∀ q2 : List radar_display_msg,
            camera_listener_iter resp { g2 with display_queue := q2 }
              = some { g2 with display_queue := q2 } := by
  have hcl : radar_classify_vehicle 3 = RADAR_VEHICLE_HEAVY := by decide
  have hsp : radar_calc_speed_kph 4000 100 = 144 := by decide
  have hev : radar_eval_status 144 RADAR_VEHICLE_HEAVY 90 light 80
      (some radar_classification_zero)
      = some
          { type := RADAR_VEHICLE_HEAVY
            speed_kph := 144
            limit_kph := 80
            warning_kph := 72
            status := RADAR_STATUS_INFRACTION } := by
    rw [radar_eval_status_some]
    simp [U32]
  have hst : ∀ m : radar_display_msg,
      camera_ctx_store camera_ctx_init (some m)
        = some (camera_ctx_init.set 0 { in_use := true, id := m.id, msg := m }) := by
    intro m
    exact camera_ctx_store_free camera_ctx_init m 0
      { in_use := false, id := 0, msg := radar_display_msg_zero }
      camera_ctx_init_length rfl rfl (fun j x hj _ => absurd hj (Nat.not_lt_zero j))
  have hiter :
      control_thread_iter
          { CONFIG_RADAR_SENSOR_DISTANCE_MM := 4000
            CONFIG_RADAR_WARNING_THRESHOLD_PERCENT := 90
            CONFIG_RADAR_SPEED_LIMIT_LIGHT_KMH := light
            CONFIG_RADAR_SPEED_LIMIT_HEAVY_KMH := 80
            CONFIG_RADAR_CAMERA_FAILURE_RATE_PERCENT := rate }
          { id := id, timestamp_ms := ts, delta_ms := 100, axles := 3 }
          { display_queue := q, camera_ctx := camera_ctx_init, camera_request_chan := [] }
        = some
            { display_queue :=
                q ++
                  [{ id := id
                     cls :=
                       { type := RADAR_VEHICLE_HEAVY
                         speed_kph := 144
                         limit_kph := 80
                         warning_kph := 72
                         status := RADAR_STATUS_INFRACTION }
                     plate_valid := false
                     plate := [] }]
              camera_ctx := camera_ctx_init.set 0
                { in_use := true, id := id
                  msg :=
                    { id := id
                      cls :=
                        { type := RADAR_VEHICLE_HEAVY
                          speed_kph := 144
                          limit_kph := 80
                          warning_kph := 72
                          status := RADAR_STATUS_INFRACTION }
                      plate_valid := false
                      plate := [] } }
              camera_request_chan :=
                [{ sample_id := id, type := RADAR_VEHICLE_HEAVY, speed_kph := 144,
                   limit_kph := 80 }] } := by
    simp only [control_thread_iter, hcl, hsp, hev, Option.getD_some, if_true, hst,
      zbus_chan_pub]
    simp [k_msgq_put, hq]
  refine ⟨hsp, _, hiter, rfl, rfl, ?_⟩
  · intro resp q1 hid hsucc hplate hq1
    have hlenA : (camera_ctx_init.set 0
        ({ in_use := true, id := id
           msg :=
             { id := id
               cls :=
                 { type := RADAR_VEHICLE_HEAVY
                   speed_kph := 144
                   limit_kph := 80
                   warning_kph := 72
                   status := RADAR_STATUS_INFRACTION }
               plate_valid := false
               plate := [] } } : camera_ctx_entry)).length = CAMERA_CTX_MAX := by
      rw [List.length_set]
      exact camera_ctx_init_length
    have hhit := camera_listener_iter_hit resp
      { display_queue := q1
        camera_ctx := camera_ctx_init.set 0
          { in_use := true, id := id
            msg :=
              { id := id
                cls :=
                  { type := RADAR_VEHICLE_HEAVY
                    speed_kph := 144
                    limit_kph := 80
                    warning_kph := 72
                    status := RADAR_STATUS_INFRACTION }
                plate_valid := false
                plate := [] } }
        camera_request_chan :=
          [{ sample_id := id, type := RADAR_VEHICLE_HEAVY, speed_kph := 144, limit_kph := 80 }] }
      0 _ hlenA (List.getElem?_set_self (by decide)) rfl hid.symm
      (fun j x hj _ => absurd hj (Nat.not_lt_zero j))
    refine ⟨_, hhit, ?_, ?_⟩
    · simp [k_msgq_put, hq1, hsucc, snprintf_fits resp.plate hplate]
    · intro q2
      refine camera_listener_iter_miss resp _ ?_ ?_
      · simp only [List.length_set]
        exact camera_ctx_init_length
      · intro k e hk hhit2
        dsimp only at hk
        have hfree : e.in_use = false := by
          refine ctx_single_freed _ _ ?_ k e hk
          rfl
        rw [hhit2.1] at hfree
        exact absurd hfree (by decide)

/-- Witness of `infraction_scenario`: event id 7 on empty queues, then the
successful result with plate "ABC1D23" twice. -/
theorem infraction_scenario_witness :
    ([] : List radar_display_msg).length < DISPLAY_QUEUE_LEN ∧
    ∃ g1 g2 : pipeline_globals,
      control_thread_iter
          { CONFIG_RADAR_SENSOR_DISTANCE_MM := 4000
            CONFIG_RADAR_WARNING_THRESHOLD_PERCENT := 90
            CONFIG_RADAR_SPEED_LIMIT_LIGHT_KMH := 60
            CONFIG_RADAR_SPEED_LIMIT_HEAVY_KMH := 80
            CONFIG_RADAR_CAMERA_FAILURE_RATE_PERCENT := 10 }
          { id := 7, timestamp_ms := 1000, delta_ms := 100, axles := 3 }
          { display_queue := [], camera_ctx := camera_ctx_init, camera_request_chan := [] }
        = some g1 ∧
      g1.camera_request_chan
        = [{ sample_id := 7, type := RADAR_VEHICLE_HEAVY, speed_kph := 144, limit_kph := 80 }] ∧
      camera_listener_iter
          { sample_id := 7, success := true, plate_valid := true,
            plate := ['A', 'B', 'C', '1', 'D', '2', '3'] }
          { g1 with display_queue := [] }
        = some g2 ∧
      g2.display_queue.map (fun m => (m.id, m.plate, m.plate_valid))
        = [(7, ['A', 'B', 'C', '1', 'D', '2', '3'], true)] ∧
      camera_listener_iter
          { sample_id := 7, success := true, plate_valid := true,
            plate := ['A', 'B', 'C', '1', 'D', '2', '3'] }
          { g2 with display_queue := [] }
        = some { g2 with display_queue := [] } := by
  refine ⟨by decide, ?_⟩
  obtain ⟨_, g1, h1, _, hreq, hrest⟩ := infraction_scenario 60 10 7 1000 [] (by decide)
  obtain ⟨g2, h2, hq2, h3⟩ := hrest
    { sample_id := 7, success := true, plate_valid := true,
      plate := ['A', 'B', 'C', '1', 'D', '2', '3'] }
    [] rfl rfl (by decide) (by decide)
  refine ⟨g1, g2, h1, hreq, h2, ?_, h3 []⟩
  rw [hq2]
  rfl

/-! ## C16: generated plates -/

theorem random_letter_is_letter (r : Nat) : is_letter (random_letter r) = true := by
  unfold random_letter
  have h := Nat.mod_lt r (by decide : 26 > 0)
  generalize r % 26 = m at h
  interval_cases m <;> decide

theorem random_digit_is_digit (r : Nat) : is_digit (random_digit r) = true := by
  unfold random_digit
  have h := Nat.mod_lt r (by decide : 10 > 0)
  generalize r % 10 = m at h
  interval_cases m <;> decide

/-- Below 10000 the conversion `%04u` prints exactly four characters. -/
theorem fmt_04u_length (v : Nat) (h : v < 10000) : (fmt_04u v).length = 4 := by
  have hlen : (Nat.toDigits 10 v).length ≤ 4 :=
    Nat.toDigitsCore_length 10 (by decide) (v + 1) v 4 (by norm_num; exact h) (by decide)
  simp only [fmt_04u, List.length_append, List.length_replicate]
  omega

/-- C16: for every sequence of random values, the plate `make_plate` writes for a
successful capture (`force_invalid = false`) has 7 characters and is accepted
by `radar_plate_is_valid`, and the plate it writes for a failed capture
(`force_invalid = true`) has 6 characters and is rejected; with the terminator
both fit the `PLATE_MAX_LEN` bytes of the buffer. -/
theorem make_plate_spec (rnd : Nat → Nat) (buf : List Char) :
    (∃ p : List Char, make_plate (some buf) false rnd = some p ∧
      p.length = 7 ∧ p.length + 1 ≤ PLATE_MAX_LEN ∧
      radar_plate_is_valid (some p) = true) ∧
    (∃ p : List Char, make_plate (some buf) true rnd = some p ∧
      p.length = 6 ∧ p.length + 1 ≤ PLATE_MAX_LEN ∧
      radar_plate_is_valid (some p) = false) := by
  constructor
  · refine ⟨[random_letter (rnd 0), random_letter (rnd 1), random_letter (rnd 2),
        random_digit (rnd 3), random_letter (rnd 4), random_digit (rnd 5),
        random_digit (rnd 6)], rfl, rfl, by simp [PLATE_MAX_LEN], ?_⟩
    simp [radar_plate_is_valid, char_at, random_letter_is_letter, random_digit_is_digit]
  · have hv : rnd 0 % 10000 < 10000 := Nat.mod_lt _ (by decide)
    have hlen : (snprintf PLATE_MAX_LEN (['X', 'X'] ++ fmt_04u (rnd 0 % 10000))).length = 6 := by
      simp [snprintf, PLATE_MAX_LEN, fmt_04u_length _ hv]
    have hmk : make_plate (some buf) true rnd
        = some (snprintf PLATE_MAX_LEN (['X', 'X'] ++ fmt_04u (rnd 0 % 10000))) := rfl
    rw [hmk]
    generalize snprintf PLATE_MAX_LEN (['X', 'X'] ++ fmt_04u (rnd 0 % 10000)) = p at hlen
    refine ⟨p, rfl, hlen, by rw [hlen]; decide, ?_⟩
    simp [radar_plate_is_valid, hlen]

/-! ## C20: the simulated transit time -/

/-- C20: for 32-bit `d` and `s > 0` such that `ceil (36 * d / (10 * s))` fits in
32 bits, `calc_delta_for_speed d s` is the greater of 1 and that ceiling, hence
at least 1, and the speed measured from it does not exceed the target:
`radar_calc_speed_kph d (calc_delta_for_speed d s) ≤ s`. -/
theorem calc_delta_for_speed_spec (d s : Nat) (hd : d < U32) (hs : s < U32) (hpos : 0 < s)
    (hfit : (d * 36 + s * 10 - 1) / (s * 10) < U32) :
    calc_delta_for_speed d s = max 1 ((d * 36 + s * 10 - 1) / (s * 10)) ∧
    1 ≤ calc_delta_for_speed d s ∧
    radar_calc_speed_kph d (calc_delta_for_speed d s) ≤ s := by
  have hU32 : U32 = 4294967296 := by decide
  have hU64 : U64 = 18446744073709551616 := by decide
  rw [hU32] at hd hs hfit
  have hnum : (d * 36) % U64 = d * 36 := Nat.mod_eq_of_lt (by rw [hU64]; omega)
  have hden : (s * 10) % U64 = s * 10 := Nat.mod_eq_of_lt (by rw [hU64]; omega)
  have hsum : (d * 36 + s * 10) % U64 = d * 36 + s * 10 :=
    Nat.mod_eq_of_lt (by rw [hU64]; omega)
  have hsub : (d * 36 + s * 10 + U64 - 1) % U64 = d * 36 + s * 10 - 1 := by
    have h1 : d * 36 + s * 10 + U64 - 1 = (d * 36 + s * 10 - 1) + U64 := by omega
    rw [h1, Nat.add_mod_right]
    exact Nat.mod_eq_of_lt (by rw [hU64]; omega)
  have hmax : MAX 1 ((d * 36 + s * 10 - 1) / (s * 10))
      = max 1 ((d * 36 + s * 10 - 1) / (s * 10)) := by
    unfold MAX
    split_ifs <;> omega
  have hdelta : calc_delta_for_speed d s = max 1 ((d * 36 + s * 10 - 1) / (s * 10)) := by
    have hs0 : s ≠ 0 := by omega
    simp only [calc_delta_for_speed, if_neg hs0, hnum, hden, hsum, hsub, hmax]
    exact Nat.mod_eq_of_lt (by rw [hU32]; omega)
  have hge : 1 ≤ calc_delta_for_speed d s := by rw [hdelta]; omega
  refine ⟨hdelta, hge, ?_⟩
  have hlt32 : calc_delta_for_speed d s < U32 := by rw [hdelta, hU32]; omega
  rw [radar_calc_speed_kph_wide d _ (by rw [hU32]; exact hd) hlt32 (by omega)]
  refine le_trans (Nat.mod_le _ _) ?_
  have hceil : d * 36 ≤ (s * 10) * ((d * 36 + s * 10 - 1) / (s * 10)) := by
    have h1 := Nat.div_add_mod (d * 36 + s * 10 - 1) (s * 10)
    have h2 : (d * 36 + s * 10 - 1) % (s * 10) < s * 10 := Nat.mod_lt _ (by omega)
    omega
  have hmono : (s * 10) * ((d * 36 + s * 10 - 1) / (s * 10))
      ≤ (s * 10) * calc_delta_for_speed d s := by
    apply Nat.mul_le_mul_left
    rw [hdelta]
    omega
  have hle : d * 36 ≤ (calc_delta_for_speed d s * 10) * s := by
    calc d * 36 ≤ (s * 10) * calc_delta_for_speed d s := le_trans hceil hmono
      _ = (calc_delta_for_speed d s * 10) * s := by ring
  exact Nat.div_le_of_le_mul hle

/-- Witness of `calc_delta_for_speed_spec`: distance 4000 mm at target 80 km/h
gives 180 ms, from which the radar measures 80 km/h. -/
theorem calc_delta_for_speed_spec_witness :
    ((4000 < U32 ∧ 80 < U32) ∧ 0 < 80 ∧ (4000 * 36 + 80 * 10 - 1) / (80 * 10) < U32) ∧
    calc_delta_for_speed 4000 80 = 180 ∧
    radar_calc_speed_kph 4000 (calc_delta_for_speed 4000 80) ≤ 80 := by
  refine ⟨by decide, ?_⟩
  have h := calc_delta_for_speed_spec 4000 80 (by decide) (by decide) (by decide) (by decide)
  exact ⟨by rw [h.1]; decide, h.2.2⟩

end Radar
